import Mathlib

/-!
# polyp network driver (`net/driver.go`)

A shallow embedding of the driver of the polyp container-network plugin.
The driver functions (`CreateNetwork`, `DeleteNetwork`, `CreateEndpoint`,
`DeleteEndpoint`, `Join`) are translated from `net/driver.go`.  The network
registry, the endpoint registries and the link provisioner that the driver
calls live in files that are not part of the translated source; they are
modelled from the specification and every such definition says so.

Go functions return an error value next to their result; here an error
result is `Option Error` (`none` is Go's `nil` error), and a mutation of the
driver's registries is an explicit new state.  Every call the driver makes to
a collaborator is appended to the ghost log `networks.calls`, so that
"the driver invokes X" is a statement about that log.
-/

namespace Polyp

/-! ## Constants of `driver.go` -/

def networkType : String := "polyp"

def vethPrefix : String := "veth"

def vethLen : Nat := 7

def containerVethPrefix : String := "eth"

/-! ## Errors -/

/-- The two causes `strconv.Atoi` reports. -/
inductive NumError where
  | ErrSyntax
  | ErrRange
  deriving DecidableEq, Repr

/-- The errors the driver returns: the four it builds itself and the error
kinds of its collaborators. -/
inductive Error where
  /-- `ErrMissingParameterMap{}` -/
  | ErrMissingParameterMap
  /-- `ErrMissingParam(name)` -/
  | ErrMissingParam (name : String)
  /-- `fmt.Errorf("could not parse %s as an integer (%v)", vlan, err)` -/
  | CouldNotParse (vlan : String) (cause : NumError)
  /-- `errors.New("invalid interface info passed")` -/
  | InvalidInterface
  | InvalidConfig
  | AlreadyExists
  | NotFound
  | Busy
  | LinkCreateFailed
  | LinkDeleteFailed
  | VethCreateFailed
  | VethDeleteFailed
  | StoreUnavailable
  | ResourceExhausted
  deriving DecidableEq, Repr

/-! ## `strconv.Atoi` and `strconv.Itoa` (Go standard library, 64-bit `int`) -/

/-- The value of an ASCII decimal digit. -/
def digitVal (c : Char) : Option Nat :=
  if 48 ≤ c.toNat ∧ c.toNat ≤ 57 then some (c.toNat - 48) else none

/-- The digit loop of `strconv.ParseUint(s, 10, 64)`: a byte that is not a
digit is a syntax error, a value above `2^64 - 1` a range error, whichever
comes first from the left. -/
def parseDigits : List Char → Nat → Except NumError Nat
  | [], acc => .ok acc
  | c :: cs, acc =>
    match digitVal c with
    | none => .error .ErrSyntax
    | some d =>
      if 2 ^ 64 - 1 < acc * 10 + d then .error .ErrRange
      else parseDigits cs (acc * 10 + d)

/-- The unsigned part of `strconv.ParseInt`: at least one digit. -/
def parseUnsigned (cs : List Char) : Except NumError Nat :=
  match cs with
  | [] => .error .ErrSyntax
  | _ => parseDigits cs 0

/-- `strconv.Atoi` on the characters of its argument: an optional sign, then
decimal digits, the value within `[-2^63, 2^63 - 1]`. -/
def atoiChars (cs : List Char) : Except NumError Int :=
  match cs with
  | [] => .error .ErrSyntax
  | c :: rest =>
    if c = '-' then
      match parseUnsigned rest with
      | .error .ErrSyntax => .error .ErrSyntax
      | .error .ErrRange => .error .ErrRange
      | .ok un => if 2 ^ 63 < un then .error .ErrRange else .ok (-(un : Int))
    else
      match parseUnsigned (if c = '+' then rest else c :: rest) with
      | .error .ErrSyntax => .error .ErrSyntax
      | .error .ErrRange => .error .ErrRange
      | .ok un => if 2 ^ 63 ≤ un then .error .ErrRange else .ok (un : Int)

/-- `strconv.Atoi`. -/
def Atoi (s : String) : Except NumError Int :=
  atoiChars s.toList

/-- `strconv.Itoa`: the decimal form, with a leading `-` for a negative number. -/
def Itoa (n : Int) : String :=
  match n with
  | Int.ofNat m => toString m
  | Int.negSucc m => "-" ++ toString (m + 1)

/-! ## Requests -/

/-- A Go `interface{}` value stored under a label: a string, or a value of
another dynamic type. -/
inductive LabelValue where
  | str (s : String)
  | num (n : Int)
  | bool (b : Bool)
  | null
  deriving DecidableEq, Repr

/-- The value of `rq.Options[key]`: a `map[string]interface{}` of labels, or a
value of another dynamic type. -/
inductive OptionValue where
  | labels (m : List (String × LabelValue))
  | other (v : LabelValue)
  deriving DecidableEq, Repr

/-- `netlabel.GenericData`. -/
def GenericData : String := "com.docker.network.generic"

/-- Go map indexing `m[key]`: the value stored under `key`, if any. -/
def mapGet {α : Type} (m : List (String × α)) (key : String) : Option α :=
  match m with
  | [] => none
  | (k, v) :: rest => if k = key then some v else mapGet rest key

/-- The type assertion `v.(map[string]interface{})` on `rq.Options[key]`. -/
def asLabels (v : Option OptionValue) : Option (List (String × LabelValue)) :=
  match v with
  | some (.labels m) => some m
  | _ => none

/-- The type assertion `labels[key].(string)`. -/
def asString (v : Option LabelValue) : Option String :=
  match v with
  | some (.str s) => some s
  | _ => none

/-- `driverapi.IPAMData`, opaque to the driver. -/
structure IPAMData where
  Pool : String
  Gateway : String
  deriving DecidableEq, Repr

structure CreateNetworkRequest where
  NetworkID : String
  Options : List (String × OptionValue)
  IPv4Data : List IPAMData
  IPv6Data : List IPAMData
  deriving DecidableEq, Repr

structure DeleteNetworkRequest where
  NetworkID : String
  deriving DecidableEq, Repr

/-- `driverapi.EndpointInterface`. -/
structure EndpointInterface where
  Address : String
  AddressIPv6 : String
  MacAddress : String
  deriving DecidableEq, Repr

/-- `rq.Interface` is a pointer: `none` is Go's `nil`. -/
structure CreateEndpointRequest where
  NetworkID : String
  EndpointID : String
  Interface : Option EndpointInterface
  deriving DecidableEq, Repr

/-- `driverapi.CreateEndpointResponse`. -/
structure CreateEndpointResponse where
  Interface : Option EndpointInterface
  deriving DecidableEq, Repr

structure DeleteEndpointRequest where
  NetworkID : String
  EndpointID : String
  deriving DecidableEq, Repr

structure JoinRequest where
  NetworkID : String
  EndpointID : String
  SandboxKey : String
  deriving DecidableEq, Repr

/-- `driverapi.InterfaceName`. -/
structure InterfaceName where
  SrcName : String
  DstPrefix : String
  deriving DecidableEq, Repr

/-- `driverapi.JoinResponse`, the fields `Join` fills. -/
structure JoinResponse where
  Gateway : String
  InterfaceName : InterfaceName
  deriving DecidableEq, Repr

/-! ## Data model -/

/-- Modelled from the spec: the type of `networkConfig.GatewayIPv4` is declared
outside `driver.go`; an address is its bytes. -/
structure IP where
  bytes : List Nat
  deriving DecidableEq, Repr

/-- Modelled from the spec: the textual form of an address, `a.b.c.d`. -/
def IP.String (ip : IP) : String :=
  ".".intercalate (ip.bytes.map toString)

/-- The fields of `networkConfig` that `driver.go` reads or writes. -/
structure networkConfig where
  LinkName : String
  BridgeName : String
  Vlan : Int
  Mtu : Int
  EnableIPv6 : Bool
  GatewayIPv4 : IP
  deriving DecidableEq, Repr

/-- An endpoint record; `ifname` is the host-side veth name `Join` returns. -/
structure endpoint where
  id : String
  ifname : String
  deriving DecidableEq, Repr

/-- The endpoint registry of one network (`ni.endpoints`). -/
structure endpoints where
  items : List endpoint
  deriving DecidableEq, Repr

/-- The handle `networks.get` returns (`ni`): the config and the endpoint
registry of one registered network. -/
structure network where
  id : String
  config : networkConfig
  endpoints : endpoints
  deriving DecidableEq, Repr

/-- One call of the driver to a collaborator. -/
inductive Call where
  | networksCreate (id : String) (config : networkConfig)
  | networksDelete (id : String)
  | networksGet (id : String)
  | createLink (config : networkConfig)
  | deleteLink (config : networkConfig)
  | endpointsVacant (network : String) (id : String)
  | endpointsCreate (network : String) (id : String)
  | endpointsDelete (network : String) (id : String)
  | endpointsGet (network : String) (id : String)
  | endpointsLength (network : String)
  deriving DecidableEq, Repr

/-- The state behind `driver.networks`: the registered networks, the kernel
interfaces (VLAN sub-interfaces and bridges) that exist, by name, and the log
of the calls received. -/
structure networks where
  table : List network
  links : List String
  calls : List Call
  deriving DecidableEq, Repr

/-- The driver; its `store` is only handed to the registries. -/
structure driver where
  scope : String
  networks : networks
  deriving DecidableEq, Repr

/-- The failures of the kernel and of the store, which the driver cannot
foresee: for each collaborator step that touches them, the error it meets in
this call, if any. -/
structure Faults where
  networksCreate : Option Error
  networksDelete : Option Error
  createLink : Option Error
  deleteLink : Option Error
  endpointsCreate : Option Error
  endpointsDelete : Option Error
  deriving DecidableEq, Repr

/-- No kernel or store failure. -/
def noFaults : Faults :=
  { networksCreate := none, networksDelete := none, createLink := none,
    deleteLink := none, endpointsCreate := none, endpointsDelete := none }

/-- The two config methods `CreateNetwork` calls after it has built the
config; they are defined outside `driver.go` and taken as parameters. A Go
method with a pointer receiver returns the updated config here. -/
structure Parsers where
  parseIPAM : String → List IPAMData → List IPAMData → networkConfig →
    Except Error networkConfig
  parseLabels : List (String × LabelValue) → networkConfig → Except Error networkConfig

/-- Parsers that accept every request and leave the config as built. -/
def plainParsers : Parsers :=
  { parseIPAM := fun _ _ _ c => .ok c, parseLabels := fun _ c => .ok c }

/-! ## Endpoint registry -/

/-- Modelled from the spec: the veth name of an endpoint is allocated
deterministically from its id; the kernel limits the length of the name, so the
id is cut to `vethLen` characters after `vethPrefix`. -/
def vethName (id : String) : String :=
  vethPrefix ++ String.mk (id.toList.take vethLen)

/-- Modelled from the spec: `vacant(id)` fails with `AlreadyExists` if an
endpoint with `id` already exists in this network. -/
def endpoints.vacant (eps : endpoints) (id : String) : Option Error :=
  if eps.items.any (fun e => e.id = id) then some .AlreadyExists else none

/-- Modelled from the spec: `create(id, requestedInterface, config)` allocates
the veth name from `id`, persists and registers the endpoint; it fails with
`ResourceExhausted` on a name collision and with the error of the kernel or the
store when those fail, and registers nothing when it fails. -/
def endpoints.create (f : Faults) (eps : endpoints) (id : String)
    (_iface : EndpointInterface) (_config : networkConfig) : Option Error × endpoints :=
  if eps.items.any (fun e => e.ifname = vethName id) then (some .ResourceExhausted, eps)
  else
    match f.endpointsCreate with
    | some err => (some err, eps)
    | none => (none, { items := eps.items ++ [{ id := id, ifname := vethName id }] })

/-- Modelled from the spec: `delete(id)` fails with `NotFound` if absent;
otherwise it removes the store record and the in-memory entry, and removes
nothing when the kernel or the store fail. -/
def endpoints.delete (f : Faults) (eps : endpoints) (id : String) : Option Error × endpoints :=
  if eps.items.any (fun e => e.id = id) then
    match f.endpointsDelete with
    | some err => (some err, eps)
    | none => (none, { items := eps.items.filter (fun e => e.id ≠ id) })
  else (some .NotFound, eps)

/-- Modelled from the spec: `get(id)` fails with `NotFound`. -/
def endpoints.get (eps : endpoints) (id : String) : Except Error endpoint :=
  match eps.items.find? (fun e => e.id = id) with
  | some ep => .ok ep
  | none => .error .NotFound

/-- Modelled from the spec: `length()`, the number of endpoints. -/
def endpoints.length (eps : endpoints) : Nat :=
  eps.items.length

/-! ## Network registry and link provisioner (`driver.networks`) -/

/-- Append a call to the log. -/
def networks.log (ns : networks) (c : Call) : networks :=
  { ns with calls := ns.calls ++ [c] }

/-- The registered network with this id. -/
def networks.find (ns : networks) (id : String) : Option network :=
  ns.table.find? (fun n => n.id = id)

/-- The endpoint registry a handle points to: `ni` is a pointer in Go, so
`ni.endpoints` is the registry currently stored for that network. -/
def networks.endpointsOf (ns : networks) (ni : network) : endpoints :=
  match ns.find ni.id with
  | some n => n.endpoints
  | none => ni.endpoints

/-- Store the mutated endpoint registry of a network. -/
def networks.setEndpoints (ns : networks) (id : String) (eps : endpoints) : networks :=
  { ns with table := ns.table.map (fun n => if n.id = id then { n with endpoints := eps } else n) }

/-- Modelled from the spec: `create(id, config)` fails with `AlreadyExists` if
`id` is already registered; otherwise it validates `config` (VLAN id > 0,
bridge and link names non-empty), persists the record and inserts it. It does
not provision the kernel link. -/
def networks.create (f : Faults) (ns : networks) (id : String) (config : networkConfig) :
    Option Error × networks :=
  let ns := ns.log (.networksCreate id config)
  match ns.find id with
  | some _ => (some .AlreadyExists, ns)
  | none =>
    if config.Vlan ≤ 0 ∨ config.LinkName = "" ∨ config.BridgeName = "" then
      (some .InvalidConfig, ns)
    else
      match f.networksCreate with
      | some err => (some err, ns)
      | none =>
        (none, { ns with table := ns.table ++
          [{ id := id, config := config, endpoints := { items := [] } }] })

/-- Modelled from the spec: `delete(id)` fails with `NotFound` if absent and
with `Busy` if the endpoint count of the network is nonzero; otherwise it removes
the store record and the in-memory entry. -/
def networks.delete (f : Faults) (ns : networks) (id : String) : Option Error × networks :=
  let ns := ns.log (.networksDelete id)
  match ns.find id with
  | none => (some .NotFound, ns)
  | some ni =>
    if ni.endpoints.length ≠ 0 then (some .Busy, ns)
    else
      match f.networksDelete with
      | some err => (some err, ns)
      | none => (none, { ns with table := ns.table.filter (fun n => n.id ≠ id) })

/-- Modelled from the spec: `get(id)` fails with `NotFound` if absent and
otherwise returns the handle of the network. -/
def networks.get (ns : networks) (id : String) : Except Error network × networks :=
  match ns.find id with
  | none => (.error .NotFound, ns.log (.networksGet id))
  | some ni => (.ok ni, ns.log (.networksGet id))

/-- Modelled from the spec: the link of a config is the pair of the VLAN
sub-interface and the bridge named in it; it exists when both interfaces
exist. -/
def networks.hasLink (ns : networks) (config : networkConfig) : Prop :=
  config.LinkName ∈ ns.links ∧ config.BridgeName ∈ ns.links

instance (ns : networks) (config : networkConfig) : Decidable (ns.hasLink config) := by
  unfold networks.hasLink
  exact inferInstance

/-- Create the interface of this name unless it exists. -/
def addInterface (links : List String) (name : String) : List String :=
  if name ∈ links then links else links ++ [name]

/-- Create the VLAN sub-interface and the bridge named in a config. -/
def addLink (links : List String) (config : networkConfig) : List String :=
  addInterface (addInterface links config.LinkName) config.BridgeName

/-- Remove the bridge and the VLAN sub-interface named in a config. -/
def removeLink (links : List String) (config : networkConfig) : List String :=
  links.filter (fun n => n ≠ config.LinkName ∧ n ≠ config.BridgeName)

/-- Modelled from the spec: `createLink(config)` is idempotent: if the VLAN
sub-interface and the bridge named in `config` already exist it returns success
without modification; otherwise it creates the VLAN sub-interface and the
bridge; when the kernel fails it rolls back and nothing is created. The kernel
state records the names of the interfaces that exist, not their attributes. -/
def networks.createLink (f : Faults) (ns : networks) (config : networkConfig) :
    Option Error × networks :=
  let ns := ns.log (.createLink config)
  match f.createLink with
  | some err => (some err, ns)
  | none =>
    if ns.hasLink config then (none, ns)
    else (none, { ns with links := addLink ns.links config })

/-- Modelled from the spec: `deleteLink(config)` is idempotent: it removes the
bridge and the sub-interface named in `config` if present; when the kernel
rejects the removal both stay. -/
def networks.deleteLink (f : Faults) (ns : networks) (config : networkConfig) :
    Option Error × networks :=
  let ns := ns.log (.deleteLink config)
  match f.deleteLink with
  | some err => (some err, ns)
  | none => (none, { ns with links := removeLink ns.links config })

/-- The call `ni.endpoints.vacant(id)`. -/
def networks.endpointsVacant (ns : networks) (ni : network) (id : String) :
    Option Error × networks :=
  ((ns.endpointsOf ni).vacant id, ns.log (.endpointsVacant ni.id id))

/-- The call `ni.endpoints.create(id, iface, config)`. -/
def networks.endpointsCreate (f : Faults) (ns : networks) (ni : network) (id : String)
    (iface : EndpointInterface) (config : networkConfig) : Option Error × networks :=
  match (ns.endpointsOf ni).create f id iface config with
  | (err, eps) => (err, (ns.setEndpoints ni.id eps).log (.endpointsCreate ni.id id))

/-- The call `ni.endpoints.delete(id)`. -/
def networks.endpointsDelete (f : Faults) (ns : networks) (ni : network) (id : String) :
    Option Error × networks :=
  match (ns.endpointsOf ni).delete f id with
  | (err, eps) => (err, (ns.setEndpoints ni.id eps).log (.endpointsDelete ni.id id))

/-- The call `ni.endpoints.get(id)`. -/
def networks.endpointsGet (ns : networks) (ni : network) (id : String) :
    Except Error endpoint × networks :=
  ((ns.endpointsOf ni).get id, ns.log (.endpointsGet ni.id id))

/-- The call `ni.endpoints.length()`. -/
def networks.endpointsLength (ns : networks) (ni : network) : Nat × networks :=
  ((ns.endpointsOf ni).length, ns.log (.endpointsLength ni.id))

/-! ## The driver (`net/driver.go`) -/

/-- The part of `CreateNetwork` that reads the labels (lines 65-83): the checks
of the `vlan` label and the config literal built from `vlan`, `iface` and
`bridge`. `GatewayIPv4` is not set there and has Go's zero value. -/
def configFromLabels (labels : List (String × LabelValue)) : Except Error networkConfig :=
  match asString (mapGet labels "vlan") with
  | none => .error (.ErrMissingParam "vlan")
  | some vlan =>
    if vlan = "" then .error (.ErrMissingParam "vlan")
    else
      match Atoi vlan with
      | .error err => .error (.CouldNotParse vlan err)
      | .ok number =>
        let ifname :=
          match asString (mapGet labels "iface") with
          | some name => if name = "" then "vlan" ++ Itoa number else name
          | none => "vlan" ++ Itoa number
        let brname :=
          match asString (mapGet labels "bridge") with
          | some name => if name = "" then "bran" ++ Itoa number else name
          | none => "bran" ++ Itoa number
        .ok { LinkName := ifname, BridgeName := brname, Vlan := number, Mtu := 1500,
              EnableIPv6 := false, GatewayIPv4 := { bytes := [] } }

/-- `driver.CreateNetwork`. -/
def driver.CreateNetwork (p : Parsers) (f : Faults) (d : driver) (rq : CreateNetworkRequest) :
    Option Error × driver :=
  match asLabels (mapGet rq.Options GenericData) with
  | none => (some .ErrMissingParameterMap, d)
  | some labels =>
    match configFromLabels labels with
    | .error err => (some err, d)
    | .ok config =>
      match p.parseIPAM rq.NetworkID rq.IPv4Data rq.IPv6Data config with
      | .error err => (some err, d)
      | .ok config =>
        match p.parseLabels labels config with
        | .error err => (some err, d)
        | .ok config =>
          match d.networks.create f rq.NetworkID config with
          | (err, ns) => (err, { d with networks := ns })

/-- `driver.DeleteNetwork`. -/
def driver.DeleteNetwork (f : Faults) (d : driver) (rq : DeleteNetworkRequest) :
    Option Error × driver :=
  match d.networks.delete f rq.NetworkID with
  | (err, ns) => (err, { d with networks := ns })

/-- `driver.CreateEndpoint`; the result is the pair `(res, err)`. -/
def driver.CreateEndpoint (f : Faults) (d : driver) (rq : CreateEndpointRequest) :
    (Option CreateEndpointResponse × Option Error) × driver :=
  match rq.Interface with
  | none => ((none, some .InvalidInterface), d)
  | some iface =>
    match d.networks.get rq.NetworkID with
    | (.error err, ns) => ((none, some err), { d with networks := ns })
    | (.ok ni, ns) =>
      match ns.endpointsVacant ni rq.EndpointID with
      | (some err, ns) => ((none, some err), { d with networks := ns })
      | (none, ns) =>
        match ns.createLink f ni.config with
        | (some err, ns) => ((none, some err), { d with networks := ns })
        | (none, ns) =>
          match ns.endpointsCreate f ni rq.EndpointID iface ni.config with
          | (err, ns) => ((some { Interface := none }, err), { d with networks := ns })

/-- `driver.DeleteEndpoint`. -/
def driver.DeleteEndpoint (f : Faults) (d : driver) (rq : DeleteEndpointRequest) :
    Option Error × driver :=
  match d.networks.get rq.NetworkID with
  | (.error err, ns) => (some err, { d with networks := ns })
  | (.ok ni, ns) =>
    match ns.endpointsDelete f ni rq.EndpointID with
    | (some err, ns) => (some err, { d with networks := ns })
    | (none, ns) =>
      match ns.endpointsLength ni with
      | (n, ns) =>
        if n = 0 then
          match ns.deleteLink f ni.config with
          | (err, ns) => (err, { d with networks := ns })
        else (none, { d with networks := ns })

/-- `driver.Join`; the result is the pair `(res, err)`. -/
def driver.Join (d : driver) (rq : JoinRequest) :
    (Option JoinResponse × Option Error) × driver :=
  match d.networks.get rq.NetworkID with
  | (.error err, ns) => ((none, some err), { d with networks := ns })
  | (.ok ni, ns) =>
    match ns.endpointsGet ni rq.EndpointID with
    | (.error err, ns) => ((none, some err), { d with networks := ns })
    | (.ok ep, ns) =>
      ((some { Gateway := ni.config.GatewayIPv4.String,
               InterfaceName := { SrcName := ep.ifname, DstPrefix := containerVethPrefix } },
        none), { d with networks := ns })

/-! ## The four state-changing operations as one step function -/

/-- A request to one of the four operations that change the driver state. -/
inductive Op where
  | CreateNetwork (rq : CreateNetworkRequest)
  | DeleteNetwork (rq : DeleteNetworkRequest)
  | CreateEndpoint (rq : CreateEndpointRequest)
  | DeleteEndpoint (rq : DeleteEndpointRequest)
  deriving DecidableEq, Repr

/-- Run one operation: the error it returns and the state it leaves. -/
def driver.run (p : Parsers) (f : Faults) (d : driver) (op : Op) : Option Error × driver :=
  match op with
  | .CreateNetwork rq => d.CreateNetwork p f rq
  | .DeleteNetwork rq => d.DeleteNetwork f rq
  | .CreateEndpoint rq => ((d.CreateEndpoint f rq).1.2, (d.CreateEndpoint f rq).2)
  | .DeleteEndpoint rq => d.DeleteEndpoint f rq

/-! ## Observations on a state -/

/-- The number of endpoints of a network (0 for an id that is not registered). -/
def driver.endpointCount (d : driver) (id : String) : Nat :=
  match d.networks.find id with
  | some ni => ni.endpoints.length
  | none => 0

/-- Whether the kernel link of a network is provisioned (false for an id that
is not registered): the sub-interface and the bridge named in the network's
config both exist. -/
def driver.linkLive (d : driver) (id : String) : Bool :=
  match d.networks.find id with
  | some ni => decide (d.networks.hasLink ni.config)
  | none => false

/-- The lifecycle rule for one network: its link is live iff it has endpoints. -/
def driver.linkInvariant (d : driver) (id : String) : Prop :=
  d.linkLive id = decide (0 < d.endpointCount id)

instance (d : driver) (id : String) : Decidable (d.linkInvariant id) := by
  unfold driver.linkInvariant
  exact inferInstance

/-- The calls an operation made: the log of the state after it, without the
log of the state before. -/
def callsSince (before after : driver) : List Call :=
  after.networks.calls.drop before.networks.calls.length

/-! ## States used as concrete inputs -/

/-- The config `CreateNetwork` builds for `vlan = "100"`. -/
def config100 : networkConfig :=
  { LinkName := "vlan100", BridgeName := "bran100", Vlan := 100, Mtu := 1500,
    EnableIPv6 := false, GatewayIPv4 := { bytes := [10, 0, 0, 1] } }

/-- A driver with network `net1` registered, no endpoint and no link. -/
def driverRegistered : driver :=
  { scope := "local",
    networks := { table := [{ id := "net1", config := config100, endpoints := { items := [] } }],
                  links := [], calls := [] } }

/-- A driver with network `net1` live: one endpoint `ep1` and its link. -/
def driverLive : driver :=
  { scope := "local",
    networks := { table := [{ id := "net1", config := config100,
                              endpoints := { items := [{ id := "ep1", ifname := "vethep1" }] } }],
                  links := ["vlan100", "bran100"], calls := [] } }

/-- A second config for `vlan = "100"`: the same sub-interface and bridge names
as `config100`, another gateway. -/
def config100b : networkConfig :=
  { LinkName := "vlan100", BridgeName := "bran100", Vlan := 100, Mtu := 1500,
    EnableIPv6 := false, GatewayIPv4 := { bytes := [10, 0, 9, 1] } }

/-- A driver with two networks, `net1` and `net2`, that name the same
sub-interface and bridge (both were created with `vlan = "100"`), with no
endpoint and no link. -/
def driverShared : driver :=
  { scope := "local",
    networks := { table := [{ id := "net1", config := config100, endpoints := { items := [] } },
                            { id := "net2", config := config100b, endpoints := { items := [] } }],
                  links := [], calls := [] } }

/-- The kernel rejects the creation of a veth pair. -/
def vethCreateFails : Faults :=
  { noFaults with endpointsCreate := some .VethCreateFailed }

/-- The kernel rejects the creation of a link. -/
def linkCreateFails : Faults :=
  { noFaults with createLink := some .LinkCreateFailed }

/-- The kernel rejects the removal of a link. -/
def linkDeleteFails : Faults :=
  { noFaults with deleteLink := some .LinkDeleteFailed }

/-- The store rejects the removal of an endpoint record. -/
def storeDeleteFails : Faults :=
  { noFaults with endpointsDelete := some .StoreUnavailable }

/-- A requested interface with no field set. -/
def emptyInterface : EndpointInterface :=
  { Address := "", AddressIPv6 := "", MacAddress := "" }

/-- A `CreateEndpoint` request with an interface. -/
def createEndpointRq (network id : String) : CreateEndpointRequest :=
  { NetworkID := network, EndpointID := id, Interface := some emptyInterface }

/-- A `CreateNetwork` request whose options hold the given labels. -/
def createNetworkRq (id : String) (labels : List (String × LabelValue)) :
    CreateNetworkRequest :=
  { NetworkID := id, Options := [(GenericData, .labels labels)], IPv4Data := [], IPv6Data := [] }

/-- The config `CreateNetwork` builds for `vlan = "200"`. -/
def config200 : networkConfig :=
  { LinkName := "vlan200", BridgeName := "bran200", Vlan := 200, Mtu := 1500,
    EnableIPv6 := false, GatewayIPv4 := { bytes := [10, 0, 1, 1] } }

/-- A driver with two networks that name different kernel interfaces: `net1` live
with the endpoint `ep1`, and `net2` registered with no endpoint and no link. -/
def driverTwo : driver :=
  { scope := "local",
    networks := { table := [{ id := "net1", config := config100,
                              endpoints := { items := [{ id := "ep1", ifname := "vethep1" }] } },
                            { id := "net2", config := config200, endpoints := { items := [] } }],
                  links := ["vlan100", "bran100"], calls := [] } }

/-- Two configs name a common kernel interface, as sub-interface or as
bridge. -/
def sharesInterface (a b : networkConfig) : Prop :=
  a.LinkName = b.LinkName ∨ a.LinkName = b.BridgeName ∨
  a.BridgeName = b.LinkName ∨ a.BridgeName = b.BridgeName

instance (a b : networkConfig) : Decidable (sharesInterface a b) := by
  unfold sharesInterface
  exact inferInstance

/-- The link of network `id`, as it is registered in `after`, is its own: no
other network registered in `before` names its sub-interface or its bridge, and
if `id` is not registered in `before` its link does not exist there. -/
def linkPrivate (before after : driver) (id : String) : Prop :=
  match after.networks.find id with
  | none => True
  | some ni =>
    (∀ m ∈ before.networks.table, m.id ≠ id → ¬ sharesInterface m.config ni.config) ∧
    (before.networks.find id = none → ¬ before.networks.hasLink ni.config)

instance (before after : driver) (id : String) : Decidable (linkPrivate before after id) := by
  unfold linkPrivate
  split <;> exact inferInstance

/-- The two partial failures that leave the link of network `id` behind: the
operation looked up `id` and returned an error, after it had invoked the
endpoint creation while `id` had no endpoint (`createLink` had succeeded, the
endpoint creation failed), or after it had invoked `deleteLink` (the last
endpoint was removed, `deleteLink` failed). -/
def linkLeftBehind (before after : driver) (err : Option Error) (id : String) : Bool :=
  err.isSome && decide (Call.networksGet id ∈ callsSince before after) &&
  (callsSince before after).any (fun c =>
    match c with
    | .endpointsCreate _ _ => decide (before.endpointCount id = 0)
    | .deleteLink _ => true
    | _ => false)

/-! ## Lemmas on the registries -/

theorem networks_find_log (ns : networks) (c : Call) (id : String) :
    (ns.log c).find id = ns.find id := rfl

theorem networks_links_log (ns : networks) (c : Call) : (ns.log c).links = ns.links := rfl

theorem networks_table_log (ns : networks) (c : Call) : (ns.log c).table = ns.table := rfl

theorem networks_calls_log (ns : networks) (c : Call) :
    (ns.log c).calls = ns.calls ++ [c] := rfl

theorem networks_endpointsOf_log (ns : networks) (c : Call) (ni : network) :
    (ns.log c).endpointsOf ni = ns.endpointsOf ni := rfl

theorem networks_links_setEndpoints (ns : networks) (id : String) (eps : endpoints) :
    (ns.setEndpoints id eps).links = ns.links := rfl

theorem networks_calls_setEndpoints (ns : networks) (id : String) (eps : endpoints) :
    (ns.setEndpoints id eps).calls = ns.calls := rfl

theorem networks_get_of_find (ns : networks) (id : String) (ni : network)
    (h : ns.find id = some ni) : ns.get id = (.ok ni, ns.log (.networksGet id)) := by
  unfold networks.get
  rw [h]

theorem networks_get_of_find_none (ns : networks) (id : String)
    (h : ns.find id = none) : ns.get id = (.error .NotFound, ns.log (.networksGet id)) := by
  unfold networks.get
  rw [h]

theorem networks_get_ok (ns : networks) (id : String) (ni : network)
    (h : (ns.get id).1 = .ok ni) : ns.find id = some ni := by
  unfold networks.get at h
  split at h
  · simp at h
  · rename_i n hn
    simp at h
    rw [hn, h]

theorem networks_get_error (ns : networks) (id : String) (err : Error)
    (h : (ns.get id).1 = .error err) : ns.find id = none ∧ err = .NotFound := by
  unfold networks.get at h
  split at h
  · rename_i hn
    simp at h
    exact ⟨hn, h.symm⟩
  · simp at h

theorem networks_find_id (ns : networks) (id : String) (ni : network)
    (h : ns.find id = some ni) : ni.id = id := by
  unfold networks.find at h
  have := List.find?_some h
  simpa using this

theorem networks_find_mem (ns : networks) (id : String) (ni : network)
    (h : ns.find id = some ni) : ni ∈ ns.table := by
  unfold networks.find at h
  exact List.mem_of_find?_eq_some h

theorem networks_endpointsOf_found (ns : networks) (id : String) (ni : network)
    (h : ns.find id = some ni) : ns.endpointsOf ni = ni.endpoints := by
  unfold networks.endpointsOf
  rw [networks_find_id ns id ni h, h]

theorem find_map_id (g : network → network) (hg : ∀ n, (g n).id = n.id) (id' : String)
    (t : List network) :
    (t.map g).find? (fun n => n.id = id') = (t.find? (fun n => n.id = id')).map g := by
  induction t with
  | nil => rfl
  | cons n t ih =>
    simp only [List.map_cons, List.find?_cons, hg]
    cases h : decide (n.id = id')
    · simpa using ih
    · simp

theorem networks_find_setEndpoints (ns : networks) (id id' : String) (eps : endpoints) :
    (ns.setEndpoints id eps).find id' =
      (ns.find id').map (fun n => if n.id = id then { n with endpoints := eps } else n) := by
  unfold networks.setEndpoints networks.find
  apply find_map_id
  intro n
  by_cases hn : n.id = id <;> simp [hn]

theorem networks_find_setEndpoints_same (ns : networks) (id : String) (eps : endpoints)
    (ni : network) (h : ns.find id = some ni) :
    (ns.setEndpoints id eps).find id = some { ni with endpoints := eps } := by
  rw [networks_find_setEndpoints, h]
  simp [networks_find_id ns id ni h]

theorem networks_find_setEndpoints_other (ns : networks) (id id' : String) (eps : endpoints)
    (h : id' ≠ id) : (ns.setEndpoints id eps).find id' = ns.find id' := by
  rw [networks_find_setEndpoints]
  cases hf : ns.find id' with
  | none => rfl
  | some n =>
    have hn : n.id ≠ id := by
      rw [networks_find_id ns id' n hf]
      exact h
    simp [hn]

theorem callsSince_append (d d' : driver) (cs : List Call)
    (h : d'.networks.calls = d.networks.calls ++ cs) : callsSince d d' = cs := by
  unfold callsSince
  rw [h, List.drop_left]

/-! ### The link provisioner -/

theorem createLink_eq (f : Faults) (ns : networks) (c : networkConfig) :
    ns.createLink f c = (f.createLink, (ns.createLink f c).2) := by
  unfold networks.createLink
  cases f.createLink with
  | some e => rfl
  | none =>
    simp only []
    split <;> rfl

theorem createLink_calls (f : Faults) (ns : networks) (c : networkConfig) :
    (ns.createLink f c).2.calls = ns.calls ++ [.createLink c] := by
  unfold networks.createLink
  cases f.createLink with
  | some e => rfl
  | none =>
    simp only []
    split <;> rfl

theorem createLink_table (f : Faults) (ns : networks) (c : networkConfig) :
    (ns.createLink f c).2.table = ns.table := by
  unfold networks.createLink
  cases f.createLink with
  | some e => rfl
  | none =>
    simp only []
    split <;> rfl

theorem createLink_find (f : Faults) (ns : networks) (c : networkConfig) (id : String) :
    (ns.createLink f c).2.find id = ns.find id := by
  unfold networks.find
  rw [createLink_table]

theorem createLink_endpointsOf (f : Faults) (ns : networks) (c : networkConfig)
    (ni : network) : (ns.createLink f c).2.endpointsOf ni = ns.endpointsOf ni := by
  unfold networks.endpointsOf
  rw [createLink_find]

theorem createLink_links_fail (f : Faults) (ns : networks) (c : networkConfig) (e : Error)
    (h : f.createLink = some e) : (ns.createLink f c).2.links = ns.links := by
  unfold networks.createLink
  rw [h]
  rfl

theorem mem_addInterface (links : List String) (name n : String) :
    n ∈ addInterface links name ↔ n ∈ links ∨ n = name := by
  unfold addInterface
  split
  · rename_i h
    constructor
    · exact Or.inl
    · rintro (hm | rfl)
      · exact hm
      · exact h
  · simp

theorem createLink_mem_links (f : Faults) (ns : networks) (c : networkConfig) (n : String)
    (h : f.createLink = none) :
    n ∈ (ns.createLink f c).2.links ↔ n ∈ ns.links ∨ n = c.LinkName ∨ n = c.BridgeName := by
  unfold networks.createLink
  rw [h]
  simp only []
  split
  · rename_i hc
    simp only [networks_links_log]
    unfold networks.hasLink at hc
    simp only [networks_links_log] at hc
    constructor
    · exact Or.inl
    · rintro (hm | rfl | rfl)
      · exact hm
      · exact hc.1
      · exact hc.2
  · simp only [addLink, mem_addInterface, networks_links_log, or_assoc]

theorem createLink_links_live (f : Faults) (ns : networks) (c : networkConfig)
    (h : f.createLink = none) (hc : ns.hasLink c) : (ns.createLink f c).2.links = ns.links := by
  have hc' : (ns.log (.createLink c)).hasLink c := hc
  unfold networks.createLink
  rw [h]
  simp only [if_pos hc']
  rfl

theorem createLink_hasLink (f : Faults) (ns : networks) (c : networkConfig)
    (h : f.createLink = none) : (ns.createLink f c).2.hasLink c := by
  unfold networks.hasLink
  rw [createLink_mem_links _ _ _ _ h, createLink_mem_links _ _ _ _ h]
  exact ⟨Or.inr (Or.inl rfl), Or.inr (Or.inr rfl)⟩

theorem deleteLink_eq (f : Faults) (ns : networks) (c : networkConfig) :
    ns.deleteLink f c = (f.deleteLink, (ns.deleteLink f c).2) := by
  unfold networks.deleteLink
  cases f.deleteLink <;> rfl

theorem deleteLink_calls (f : Faults) (ns : networks) (c : networkConfig) :
    (ns.deleteLink f c).2.calls = ns.calls ++ [.deleteLink c] := by
  unfold networks.deleteLink
  cases f.deleteLink <;> rfl

theorem deleteLink_table (f : Faults) (ns : networks) (c : networkConfig) :
    (ns.deleteLink f c).2.table = ns.table := by
  unfold networks.deleteLink
  cases f.deleteLink <;> rfl

theorem deleteLink_find (f : Faults) (ns : networks) (c : networkConfig) (id : String) :
    (ns.deleteLink f c).2.find id = ns.find id := by
  unfold networks.find
  rw [deleteLink_table]

theorem deleteLink_links_fail (f : Faults) (ns : networks) (c : networkConfig) (e : Error)
    (h : f.deleteLink = some e) : (ns.deleteLink f c).2.links = ns.links := by
  unfold networks.deleteLink
  rw [h]
  rfl

theorem deleteLink_mem_links (f : Faults) (ns : networks) (c : networkConfig) (n : String)
    (h : f.deleteLink = none) :
    n ∈ (ns.deleteLink f c).2.links ↔ n ∈ ns.links ∧ n ≠ c.LinkName ∧ n ≠ c.BridgeName := by
  unfold networks.deleteLink
  rw [h]
  simp [networks_links_log, removeLink]

theorem hasLink_congr (ns ns' : networks) (c : networkConfig) (h : ns'.links = ns.links) :
    ns'.hasLink c ↔ ns.hasLink c := by
  unfold networks.hasLink
  rw [h]

/-! ### The endpoint registry reached through a handle -/

theorem endpointsCreate_eq (f : Faults) (ns : networks) (ni : network) (id : String)
    (iface : EndpointInterface) (c : networkConfig) :
    ns.endpointsCreate f ni id iface c =
      (((ns.endpointsOf ni).create f id iface c).1,
        (ns.setEndpoints ni.id ((ns.endpointsOf ni).create f id iface c).2).log
          (.endpointsCreate ni.id id)) := rfl

theorem endpointsDelete_eq (f : Faults) (ns : networks) (ni : network) (id : String) :
    ns.endpointsDelete f ni id =
      (((ns.endpointsOf ni).delete f id).1,
        (ns.setEndpoints ni.id ((ns.endpointsOf ni).delete f id).2).log
          (.endpointsDelete ni.id id)) := rfl

theorem endpoints_create_fail (f : Faults) (eps : endpoints) (id : String)
    (iface : EndpointInterface) (c : networkConfig) (e : Error)
    (h : (eps.create f id iface c).1 = some e) : (eps.create f id iface c).2 = eps := by
  unfold endpoints.create at h ⊢
  split
  · rfl
  · rename_i hcol
    rw [if_neg hcol] at h
    cases hf : f.endpointsCreate with
    | some e' => rfl
    | none =>
      rw [hf] at h
      simp at h

theorem endpoints_create_ok (f : Faults) (eps : endpoints) (id : String)
    (iface : EndpointInterface) (c : networkConfig)
    (h : (eps.create f id iface c).1 = none) :
    (eps.create f id iface c).2.items = eps.items ++ [{ id := id, ifname := vethName id }] := by
  unfold endpoints.create at h ⊢
  split
  · rename_i hcol
    rw [if_pos hcol] at h
    simp at h
  · rename_i hcol
    rw [if_neg hcol] at h
    cases hf : f.endpointsCreate with
    | some e' =>
      rw [hf] at h
      simp at h
    | none => rfl

theorem endpoints_delete_fail (f : Faults) (eps : endpoints) (id : String) (e : Error)
    (h : (eps.delete f id).1 = some e) : (eps.delete f id).2 = eps := by
  unfold endpoints.delete at h ⊢
  split
  · rename_i hin
    rw [if_pos hin] at h
    cases hf : f.endpointsDelete with
    | some e' => rfl
    | none =>
      rw [hf] at h
      simp at h
  · rfl

theorem endpoints_delete_ok (f : Faults) (eps : endpoints) (id : String)
    (h : (eps.delete f id).1 = none) :
    eps.items.any (fun e => e.id = id) = true ∧
    (eps.delete f id).2.items = eps.items.filter (fun e => e.id ≠ id) := by
  unfold endpoints.delete at h ⊢
  split
  · rename_i hin
    rw [if_pos hin] at h
    cases hf : f.endpointsDelete with
    | some e' =>
      rw [hf] at h
      simp at h
    | none => exact ⟨hin, rfl⟩
  · rename_i hin
    rw [if_neg hin] at h
    simp at h

theorem endpoints_delete_absent (f : Faults) (eps : endpoints) (id : String)
    (h : eps.items.any (fun e => e.id = id) = false) :
    eps.delete f id = (some .NotFound, eps) := by
  unfold endpoints.delete
  rw [h]
  rfl

theorem networks_setEndpoints_same (ns : networks) (id : String) (ni : network)
    (h : ns.find id = some ni) (n : String) :
    (ns.setEndpoints id ni.endpoints).find n = ns.find n := by
  rw [networks_find_setEndpoints]
  cases hf : ns.find n with
  | none => rfl
  | some m =>
    by_cases hm : m.id = id
    · have hn : n = id := by
        rw [← networks_find_id ns n m hf]
        exact hm
      subst hn
      rw [h] at hf
      cases hf
      simp
    · simp [hm]


/-! ## The paths of `CreateEndpoint` -/

theorem CreateEndpoint_path_nil (f : Faults) (d : driver) (rq : CreateEndpointRequest)
    (hi : rq.Interface = none) :
    d.CreateEndpoint f rq = ((none, some .InvalidInterface), d) := by
  unfold driver.CreateEndpoint
  rw [hi]

theorem CreateEndpoint_path_unknown (f : Faults) (d : driver) (rq : CreateEndpointRequest)
    (iface : EndpointInterface) (hi : rq.Interface = some iface)
    (hfind : d.networks.find rq.NetworkID = none) :
    (d.CreateEndpoint f rq).1 = (none, some .NotFound) ∧
    (d.CreateEndpoint f rq).2.networks = d.networks.log (.networksGet rq.NetworkID) := by
  unfold driver.CreateEndpoint
  rw [hi]
  simp only []
  rw [networks_get_of_find_none _ _ hfind]
  exact ⟨rfl, rfl⟩

theorem CreateEndpoint_path_occupied (f : Faults) (d : driver) (rq : CreateEndpointRequest)
    (iface : EndpointInterface) (ni : network) (e : Error) (hi : rq.Interface = some iface)
    (hfind : d.networks.find rq.NetworkID = some ni)
    (hvac : ni.endpoints.vacant rq.EndpointID = some e) :
    (d.CreateEndpoint f rq).1 = (none, some e) ∧
    (d.CreateEndpoint f rq).2.networks =
      (d.networks.log (.networksGet rq.NetworkID)).log
        (.endpointsVacant rq.NetworkID rq.EndpointID) := by
  have hid := networks_find_id _ _ _ hfind
  unfold driver.CreateEndpoint
  rw [hi]
  simp only []
  rw [networks_get_of_find _ _ _ hfind]
  simp only [networks.endpointsVacant, networks_endpointsOf_log,
    networks_endpointsOf_found _ _ _ hfind, hvac, hid]
  refine ⟨?_, ?_⟩ <;> first | rfl | trivial

theorem CreateEndpoint_path_link_fail (f : Faults) (d : driver) (rq : CreateEndpointRequest)
    (iface : EndpointInterface) (ni : network) (e : Error) (hi : rq.Interface = some iface)
    (hfind : d.networks.find rq.NetworkID = some ni)
    (hvac : ni.endpoints.vacant rq.EndpointID = none)
    (hlink : f.createLink = some e) :
    (d.CreateEndpoint f rq).1 = (none, some e) ∧
    (d.CreateEndpoint f rq).2.networks =
      (((d.networks.log (.networksGet rq.NetworkID)).log
        (.endpointsVacant rq.NetworkID rq.EndpointID)).createLink f ni.config).2 := by
  have hid := networks_find_id _ _ _ hfind
  unfold driver.CreateEndpoint
  rw [hi]
  simp only []
  rw [networks_get_of_find _ _ _ hfind]
  simp only [networks.endpointsVacant, networks_endpointsOf_log,
    networks_endpointsOf_found _ _ _ hfind, hvac, hid]
  rw [createLink_eq, hlink]
  exact ⟨rfl, rfl⟩

theorem CreateEndpoint_path_create (f : Faults) (d : driver) (rq : CreateEndpointRequest)
    (iface : EndpointInterface) (ni : network) (hi : rq.Interface = some iface)
    (hfind : d.networks.find rq.NetworkID = some ni)
    (hvac : ni.endpoints.vacant rq.EndpointID = none)
    (hlink : f.createLink = none) :
    (d.CreateEndpoint f rq).1 =
      (some { Interface := none }, (ni.endpoints.create f rq.EndpointID iface ni.config).1) ∧
    (d.CreateEndpoint f rq).2.networks =
      (((((d.networks.log (.networksGet rq.NetworkID)).log
        (.endpointsVacant rq.NetworkID rq.EndpointID)).createLink f ni.config).2.setEndpoints
          rq.NetworkID (ni.endpoints.create f rq.EndpointID iface ni.config).2).log
            (.endpointsCreate rq.NetworkID rq.EndpointID)) := by
  have hid := networks_find_id _ _ _ hfind
  unfold driver.CreateEndpoint
  rw [hi]
  simp only []
  rw [networks_get_of_find _ _ _ hfind]
  simp only [networks.endpointsVacant, networks_endpointsOf_log,
    networks_endpointsOf_found _ _ _ hfind, hvac, hid]
  rw [createLink_eq, hlink]
  simp only [endpointsCreate_eq, createLink_endpointsOf, networks_endpointsOf_log,
    networks_endpointsOf_found _ _ _ hfind, hid]
  refine ⟨?_, ?_⟩ <;> first | rfl | trivial

theorem networks_endpointsOf_setEndpoints (ns : networks) (id : String) (ni : network)
    (eps : endpoints) (h : ns.find id = some ni) :
    (ns.setEndpoints id eps).endpointsOf ni = eps := by
  have hid := networks_find_id _ _ _ h
  unfold networks.endpointsOf
  rw [hid, networks_find_setEndpoints_same _ _ _ _ h]

/-! ## The paths of `DeleteEndpoint` -/

theorem DeleteEndpoint_path_unknown (f : Faults) (d : driver) (rq : DeleteEndpointRequest)
    (hfind : d.networks.find rq.NetworkID = none) :
    (d.DeleteEndpoint f rq).1 = some .NotFound ∧
    (d.DeleteEndpoint f rq).2.networks = d.networks.log (.networksGet rq.NetworkID) := by
  unfold driver.DeleteEndpoint
  rw [networks_get_of_find_none _ _ hfind]
  exact ⟨rfl, rfl⟩

theorem DeleteEndpoint_path_fail (f : Faults) (d : driver) (rq : DeleteEndpointRequest)
    (ni : network) (e : Error)
    (hfind : d.networks.find rq.NetworkID = some ni)
    (hdel : (ni.endpoints.delete f rq.EndpointID).1 = some e) :
    (d.DeleteEndpoint f rq).1 = some e ∧
    (d.DeleteEndpoint f rq).2.networks =
      (((d.networks.log (.networksGet rq.NetworkID)).setEndpoints rq.NetworkID
        (ni.endpoints.delete f rq.EndpointID).2).log
          (.endpointsDelete rq.NetworkID rq.EndpointID)) := by
  have hid := networks_find_id _ _ _ hfind
  unfold driver.DeleteEndpoint
  rw [networks_get_of_find _ _ _ hfind]
  simp only [endpointsDelete_eq, networks_endpointsOf_log,
    networks_endpointsOf_found _ _ _ hfind, hid, hdel]
  refine ⟨?_, ?_⟩ <;> first | rfl | trivial

theorem DeleteEndpoint_path_remaining (f : Faults) (d : driver) (rq : DeleteEndpointRequest)
    (ni : network)
    (hfind : d.networks.find rq.NetworkID = some ni)
    (hdel : (ni.endpoints.delete f rq.EndpointID).1 = none)
    (hlen : (ni.endpoints.delete f rq.EndpointID).2.length ≠ 0) :
    (d.DeleteEndpoint f rq).1 = none ∧
    (d.DeleteEndpoint f rq).2.networks =
      ((((d.networks.log (.networksGet rq.NetworkID)).setEndpoints rq.NetworkID
        (ni.endpoints.delete f rq.EndpointID).2).log
          (.endpointsDelete rq.NetworkID rq.EndpointID)).log
            (.endpointsLength rq.NetworkID)) := by
  have hid := networks_find_id _ _ _ hfind
  have hfind' : (d.networks.log (.networksGet rq.NetworkID)).find rq.NetworkID = some ni := hfind
  unfold driver.DeleteEndpoint
  rw [networks_get_of_find _ _ _ hfind]
  simp only [endpointsDelete_eq, networks_endpointsOf_log,
    networks_endpointsOf_found _ _ _ hfind, hid, hdel, networks.endpointsLength,
    networks_endpointsOf_setEndpoints _ _ _ _ hfind', if_neg hlen]
  refine ⟨?_, ?_⟩ <;> first | rfl | trivial

theorem DeleteEndpoint_path_last (f : Faults) (d : driver) (rq : DeleteEndpointRequest)
    (ni : network)
    (hfind : d.networks.find rq.NetworkID = some ni)
    (hdel : (ni.endpoints.delete f rq.EndpointID).1 = none)
    (hlen : (ni.endpoints.delete f rq.EndpointID).2.length = 0) :
    (d.DeleteEndpoint f rq).1 = f.deleteLink ∧
    (d.DeleteEndpoint f rq).2.networks =
      (((((d.networks.log (.networksGet rq.NetworkID)).setEndpoints rq.NetworkID
        (ni.endpoints.delete f rq.EndpointID).2).log
          (.endpointsDelete rq.NetworkID rq.EndpointID)).log
            (.endpointsLength rq.NetworkID)).deleteLink f ni.config).2 := by
  have hid := networks_find_id _ _ _ hfind
  have hfind' : (d.networks.log (.networksGet rq.NetworkID)).find rq.NetworkID = some ni := hfind
  unfold driver.DeleteEndpoint
  rw [networks_get_of_find _ _ _ hfind]
  simp only [endpointsDelete_eq, networks_endpointsOf_log,
    networks_endpointsOf_found _ _ _ hfind, hid, hdel, networks.endpointsLength,
    networks_endpointsOf_setEndpoints _ _ _ _ hfind', hlen, if_true]
  rw [deleteLink_eq]
  refine ⟨?_, ?_⟩ <;> first | rfl | trivial

/-! ## The paths of `Join` -/

theorem Join_path_unknown (d : driver) (rq : JoinRequest)
    (hfind : d.networks.find rq.NetworkID = none) :
    (d.Join rq).1 = (none, some .NotFound) := by
  unfold driver.Join
  rw [networks_get_of_find_none _ _ hfind]

theorem Join_path_absent (d : driver) (rq : JoinRequest) (ni : network) (e : Error)
    (hfind : d.networks.find rq.NetworkID = some ni)
    (hep : ni.endpoints.get rq.EndpointID = .error e) :
    (d.Join rq).1 = (none, some e) := by
  unfold driver.Join
  rw [networks_get_of_find _ _ _ hfind]
  simp only [networks.endpointsGet, networks_endpointsOf_log,
    networks_endpointsOf_found _ _ _ hfind, hep]

theorem Join_path_found (d : driver) (rq : JoinRequest) (ni : network) (ep : endpoint)
    (hfind : d.networks.find rq.NetworkID = some ni)
    (hep : ni.endpoints.get rq.EndpointID = .ok ep) :
    (d.Join rq).1 =
      (some { Gateway := ni.config.GatewayIPv4.String,
              InterfaceName := { SrcName := ep.ifname, DstPrefix := containerVethPrefix } },
        none) := by
  unfold driver.Join
  rw [networks_get_of_find _ _ _ hfind]
  simp only [networks.endpointsGet, networks_endpointsOf_log,
    networks_endpointsOf_found _ _ _ hfind, hep]

/-! ## Observations after an operation -/

theorem endpointCount_eq_of_find (d d' : driver) (id : String)
    (h : d'.networks.find id = d.networks.find id) :
    d'.endpointCount id = d.endpointCount id := by
  unfold driver.endpointCount
  rw [h]

theorem linkLive_eq_of_find (d d' : driver) (id : String)
    (h : d'.networks.find id = d.networks.find id)
    (hl : d'.networks.links = d.networks.links) :
    d'.linkLive id = d.linkLive id := by
  unfold driver.linkLive
  rw [h]
  cases d.networks.find id with
  | none => rfl
  | some ni =>
    simp only []
    rw [decide_eq_decide]
    exact hasLink_congr _ _ _ hl

/-! ## CreateEndpoint: the claims on its error paths -/

/-- C3: for every `CreateEndpoint` request with a non-nil interface whose
network id is not registered (`networks.get` fails with `NotFound`),
`CreateEndpoint` returns that `NotFound` error with no response, the only call it
makes is the lookup `networks.get` (so neither `createLink` nor the endpoint
registry's `vacant` or `create` is invoked), and the links and the registered
networks with their endpoints are unchanged. -/
theorem CreateEndpoint_unknown_network (f : Faults) (d : driver) (rq : CreateEndpointRequest)
    (hif : rq.Interface ≠ none)
    (hget : (d.networks.get rq.NetworkID).1 = .error Error.NotFound) :
    (d.CreateEndpoint f rq).1 = (none, some Error.NotFound) ∧
    callsSince d (d.CreateEndpoint f rq).2 = [Call.networksGet rq.NetworkID] ∧
    (d.CreateEndpoint f rq).2.networks.links = d.networks.links ∧
    (d.CreateEndpoint f rq).2.networks.table = d.networks.table := by
  obtain ⟨iface, hi⟩ := Option.ne_none_iff_exists'.mp hif
  have hfind := (networks_get_error _ _ _ hget).1
  obtain ⟨h1, h2⟩ := CreateEndpoint_path_unknown f d rq iface hi hfind
  refine ⟨h1, ?_, ?_, ?_⟩
  · apply callsSince_append
    rw [h2]
    rfl
  · rw [h2]
    rfl
  · rw [h2]
    rfl

/-- Witness of C3: `CreateEndpoint` for the unregistered network `net9`. -/
theorem CreateEndpoint_unknown_network_witness :
    (createEndpointRq "net9" "ep1").Interface ≠ none ∧
    (driverRegistered.networks.get "net9").1 = .error Error.NotFound ∧
    (driverRegistered.CreateEndpoint noFaults (createEndpointRq "net9" "ep1")).1 =
      (none, some Error.NotFound) ∧
    callsSince driverRegistered
      (driverRegistered.CreateEndpoint noFaults (createEndpointRq "net9" "ep1")).2 =
      [Call.networksGet "net9"] :=
  ⟨by decide, by rfl,
   (CreateEndpoint_unknown_network noFaults driverRegistered (createEndpointRq "net9" "ep1")
      (by decide) (by rfl)).1,
   (CreateEndpoint_unknown_network noFaults driverRegistered (createEndpointRq "net9" "ep1")
      (by decide) (by rfl)).2.1⟩

/-- C4: for every `CreateEndpoint` request on an existing network whose
endpoint id is already present (the registry's `vacant` fails with
`AlreadyExists`), `CreateEndpoint` returns that `AlreadyExists` error; the calls
it makes are the lookup and the vacancy check only (neither `createLink` nor the
endpoint registry's `create`), and the links and the registered networks with
their endpoints, hence the endpoint count, are unchanged. -/
theorem CreateEndpoint_duplicate_endpoint (f : Faults) (d : driver)
    (rq : CreateEndpointRequest) (ni : network)
    (hif : rq.Interface ≠ none)
    (hget : (d.networks.get rq.NetworkID).1 = .ok ni)
    (hvac : ni.endpoints.vacant rq.EndpointID = some Error.AlreadyExists) :
    (d.CreateEndpoint f rq).1 = (none, some Error.AlreadyExists) ∧
    callsSince d (d.CreateEndpoint f rq).2 =
      [Call.networksGet rq.NetworkID, Call.endpointsVacant rq.NetworkID rq.EndpointID] ∧
    (d.CreateEndpoint f rq).2.networks.links = d.networks.links ∧
    (d.CreateEndpoint f rq).2.networks.table = d.networks.table ∧
    (d.CreateEndpoint f rq).2.endpointCount rq.NetworkID = d.endpointCount rq.NetworkID := by
  obtain ⟨iface, hi⟩ := Option.ne_none_iff_exists'.mp hif
  have hfind := networks_get_ok _ _ _ hget
  obtain ⟨h1, h2⟩ := CreateEndpoint_path_occupied f d rq iface ni _ hi hfind hvac
  refine ⟨h1, ?_, ?_, ?_, ?_⟩
  · apply callsSince_append
    rw [h2]
    simp [networks_calls_log]
  · rw [h2]
    rfl
  · rw [h2]
    rfl
  · apply endpointCount_eq_of_find
    rw [h2]
    rfl

/-- Witness of C4: a second `CreateEndpoint` of `ep1` on the live network `net1`. -/
theorem CreateEndpoint_duplicate_endpoint_witness :
    (driverLive.CreateEndpoint noFaults (createEndpointRq "net1" "ep1")).1 =
      (none, some Error.AlreadyExists) ∧
    callsSince driverLive (driverLive.CreateEndpoint noFaults (createEndpointRq "net1" "ep1")).2 =
      [Call.networksGet "net1", Call.endpointsVacant "net1" "ep1"] ∧
    (driverLive.CreateEndpoint noFaults (createEndpointRq "net1" "ep1")).2.endpointCount "net1"
      = 1 :=
  have h := CreateEndpoint_duplicate_endpoint noFaults driverLive (createEndpointRq "net1" "ep1")
    { id := "net1", config := config100,
      endpoints := { items := [{ id := "ep1", ifname := "vethep1" }] } }
    (by decide) (by rfl) (by rfl)
  ⟨h.1, h.2.1, h.2.2.2.2⟩

/-- C5: for every `CreateEndpoint` request that passes the network lookup and
the vacancy check: if `createLink` fails, `CreateEndpoint` returns the error of
`createLink`, the endpoint registry's `create` is never invoked, and the
registered networks and links, hence the endpoint count, are unchanged; if
`createLink` succeeds and the endpoint creation fails, the error of the
endpoint creation is returned, `deleteLink` is not invoked, the link is left in
place and the endpoint count is unchanged. -/
theorem CreateEndpoint_failure_paths (f : Faults) (d : driver) (rq : CreateEndpointRequest)
    (ni : network) (iface : EndpointInterface)
    (hi : rq.Interface = some iface)
    (hget : (d.networks.get rq.NetworkID).1 = .ok ni)
    (hvac : ni.endpoints.vacant rq.EndpointID = none) :
    (∀ e, (d.networks.createLink f ni.config).1 = some e →
      (d.CreateEndpoint f rq).1 = (none, some e) ∧
      callsSince d (d.CreateEndpoint f rq).2 =
        [Call.networksGet rq.NetworkID, Call.endpointsVacant rq.NetworkID rq.EndpointID,
         Call.createLink ni.config] ∧
      (∀ n i, Call.endpointsCreate n i ∉ callsSince d (d.CreateEndpoint f rq).2) ∧
      (d.CreateEndpoint f rq).2.networks.table = d.networks.table ∧
      (d.CreateEndpoint f rq).2.networks.links = d.networks.links ∧
      (d.CreateEndpoint f rq).2.endpointCount rq.NetworkID = d.endpointCount rq.NetworkID) ∧
    (∀ e, (d.networks.createLink f ni.config).1 = none →
      (ni.endpoints.create f rq.EndpointID iface ni.config).1 = some e →
      (d.CreateEndpoint f rq).1.2 = some e ∧
      callsSince d (d.CreateEndpoint f rq).2 =
        [Call.networksGet rq.NetworkID, Call.endpointsVacant rq.NetworkID rq.EndpointID,
         Call.createLink ni.config, Call.endpointsCreate rq.NetworkID rq.EndpointID] ∧
      (∀ c, Call.deleteLink c ∉ callsSince d (d.CreateEndpoint f rq).2) ∧
      (d.CreateEndpoint f rq).2.networks.hasLink ni.config ∧
      (d.CreateEndpoint f rq).2.endpointCount rq.NetworkID = d.endpointCount rq.NetworkID) := by
  have hfind := networks_get_ok _ _ _ hget
  constructor
  · intro e he
    rw [createLink_eq] at he
    obtain ⟨h1, h2⟩ := CreateEndpoint_path_link_fail f d rq iface ni e hi hfind hvac he
    have hcalls : callsSince d (d.CreateEndpoint f rq).2 =
        [Call.networksGet rq.NetworkID, Call.endpointsVacant rq.NetworkID rq.EndpointID,
         Call.createLink ni.config] := by
      apply callsSince_append
      rw [h2, createLink_calls]
      simp [networks_calls_log]
    refine ⟨h1, hcalls, ?_, ?_, ?_, ?_⟩
    · intro n i
      rw [hcalls]
      simp
    · rw [h2, createLink_table]
      rfl
    · rw [h2, createLink_links_fail _ _ _ _ he]
      rfl
    · apply endpointCount_eq_of_find
      rw [h2, createLink_find]
      rfl
  · intro e hl he
    rw [createLink_eq] at hl
    obtain ⟨h1, h2⟩ := CreateEndpoint_path_create f d rq iface ni hi hfind hvac hl
    have hcalls : callsSince d (d.CreateEndpoint f rq).2 =
        [Call.networksGet rq.NetworkID, Call.endpointsVacant rq.NetworkID rq.EndpointID,
         Call.createLink ni.config, Call.endpointsCreate rq.NetworkID rq.EndpointID] := by
      apply callsSince_append
      rw [h2, networks_calls_log, networks_calls_setEndpoints, createLink_calls]
      simp [networks_calls_log]
    refine ⟨?_, hcalls, ?_, ?_, ?_⟩
    · rw [h1]
      exact he
    · intro c
      rw [hcalls]
      simp
    · rw [h2]
      exact createLink_hasLink _ _ _ hl
    · apply endpointCount_eq_of_find
      rw [h2, networks_find_log, endpoints_create_fail _ _ _ _ _ _ he]
      have hf3 : ((((d.networks.log (.networksGet rq.NetworkID)).log
          (.endpointsVacant rq.NetworkID rq.EndpointID)).createLink f ni.config).2).find
            rq.NetworkID = some ni := by
        rw [createLink_find]
        exact hfind
      rw [networks_setEndpoints_same _ _ _ hf3, hf3, hfind]

/-- Witness of C5: on the registered network `net1`, a first endpoint whose link
creation fails, and a first endpoint whose veth creation fails after the link
was created. -/
theorem CreateEndpoint_failure_paths_witness :
    ((driverRegistered.CreateEndpoint linkCreateFails (createEndpointRq "net1" "ep1")).1 =
        (none, some Error.LinkCreateFailed) ∧
      (driverRegistered.CreateEndpoint linkCreateFails
        (createEndpointRq "net1" "ep1")).2.networks.links = []) ∧
    ((driverRegistered.CreateEndpoint vethCreateFails (createEndpointRq "net1" "ep1")).1.2 =
        some Error.VethCreateFailed ∧
      (driverRegistered.CreateEndpoint vethCreateFails
        (createEndpointRq "net1" "ep1")).2.networks.hasLink config100 ∧
      (driverRegistered.CreateEndpoint vethCreateFails
        (createEndpointRq "net1" "ep1")).2.endpointCount "net1" = 0) :=
  have ha := (CreateEndpoint_failure_paths linkCreateFails driverRegistered
    (createEndpointRq "net1" "ep1")
    { id := "net1", config := config100, endpoints := { items := [] } } emptyInterface
    (by rfl) (by rfl) (by rfl)).1 Error.LinkCreateFailed (by rfl)
  have hb := (CreateEndpoint_failure_paths vethCreateFails driverRegistered
    (createEndpointRq "net1" "ep1")
    { id := "net1", config := config100, endpoints := { items := [] } } emptyInterface
    (by rfl) (by rfl) (by rfl)).2 Error.VethCreateFailed (by rfl) (by rfl)
  ⟨⟨ha.1, ha.2.2.2.2.1⟩, ⟨hb.1, hb.2.2.2.1, hb.2.2.2.2⟩⟩

/-! ## CreateEndpoint: when the link is provisioned -/

/-- C2, as the code has it: for every `CreateEndpoint` request that passes the
interface check, the network lookup and the vacancy check, whatever the number
of endpoints the network already has, `createLink` is invoked, right after the
vacancy check and before the endpoint registry's `create`; `create` is invoked
exactly when `createLink` succeeded. When the link of the network is already
live and `createLink` succeeds, the links are unchanged. -/
theorem CreateEndpoint_invokes_createLink (f : Faults) (d : driver)
    (rq : CreateEndpointRequest) (ni : network) (iface : EndpointInterface)
    (hi : rq.Interface = some iface)
    (hget : (d.networks.get rq.NetworkID).1 = .ok ni)
    (hvac : ni.endpoints.vacant rq.EndpointID = none) :
    callsSince d (d.CreateEndpoint f rq).2 =
      [Call.networksGet rq.NetworkID, Call.endpointsVacant rq.NetworkID rq.EndpointID,
       Call.createLink ni.config] ++
        (if (d.networks.createLink f ni.config).1 = none
          then [Call.endpointsCreate rq.NetworkID rq.EndpointID] else []) ∧
    (d.networks.hasLink ni.config → (d.networks.createLink f ni.config).1 = none →
      (d.CreateEndpoint f rq).2.networks.links = d.networks.links) := by
  have hfind := networks_get_ok _ _ _ hget
  rw [createLink_eq]
  simp only []
  cases hl : f.createLink with
  | some e =>
    obtain ⟨_, h2⟩ := CreateEndpoint_path_link_fail f d rq iface ni e hi hfind hvac hl
    constructor
    · apply callsSince_append
      rw [h2, createLink_calls]
      simp [networks_calls_log]
    · intro _ h
      simp at h
  | none =>
    obtain ⟨_, h2⟩ := CreateEndpoint_path_create f d rq iface ni hi hfind hvac hl
    constructor
    · apply callsSince_append
      rw [h2, networks_calls_log, networks_calls_setEndpoints, createLink_calls]
      simp [networks_calls_log]
    · intro hmem _
      have hmem' : ((d.networks.log (.networksGet rq.NetworkID)).log
          (.endpointsVacant rq.NetworkID rq.EndpointID)).hasLink ni.config := hmem
      rw [h2, networks_links_log, networks_links_setEndpoints,
        createLink_links_live _ _ _ hl hmem']
      rfl

/-- Witness of C2 as the code has it: a second endpoint on the live network
`net1`. -/
theorem CreateEndpoint_invokes_createLink_witness :
    callsSince driverLive (driverLive.CreateEndpoint noFaults (createEndpointRq "net1" "ep2")).2 =
      [Call.networksGet "net1", Call.endpointsVacant "net1" "ep2", Call.createLink config100,
       Call.endpointsCreate "net1" "ep2"] ∧
    (driverLive.CreateEndpoint noFaults (createEndpointRq "net1" "ep2")).2.networks.links =
      ["vlan100", "bran100"] :=
  have h := CreateEndpoint_invokes_createLink noFaults driverLive (createEndpointRq "net1" "ep2")
    { id := "net1", config := config100,
      endpoints := { items := [{ id := "ep1", ifname := "vethep1" }] } } emptyInterface
    (by rfl) (by rfl) (by rfl)
  ⟨h.1, h.2 (by decide) (by rfl)⟩

/-- Counterexample to C2 as stated: network `net1` already has the endpoint
`ep1`, the id `ep2` is vacant, and `CreateEndpoint` for `ep2` invokes
`createLink`. -/
theorem CreateEndpoint_createLink_not_first_only :
    0 < driverLive.endpointCount "net1" ∧
    (driverLive.networks.get "net1").1.toOption.map
      (fun ni => ni.endpoints.vacant "ep2") = some none ∧
    Call.createLink config100 ∈
      callsSince driverLive (driverLive.CreateEndpoint noFaults (createEndpointRq "net1" "ep2")).2 := by
  decide

/-! ## DeleteEndpoint -/

/-- C6: `DeleteEndpoint` invokes `deleteLink` if and only if the network lookup
succeeded, the endpoint removal succeeded, and the length of the endpoint
registry after the removal is 0 (and then with the config of that network, as
its last call); when the endpoint removal fails its error is returned and the
links are unchanged; when the count after the removal is still positive the
links are unchanged and the call succeeds. -/
theorem DeleteEndpoint_deleteLink_iff (f : Faults) (d : driver) (rq : DeleteEndpointRequest) :
    ((∃ c, Call.deleteLink c ∈ callsSince d (d.DeleteEndpoint f rq).2) ↔
      ∃ ni, (d.networks.get rq.NetworkID).1 = .ok ni ∧
        (ni.endpoints.delete f rq.EndpointID).1 = none ∧
        (ni.endpoints.delete f rq.EndpointID).2.length = 0) ∧
    (∀ ni, (d.networks.get rq.NetworkID).1 = .ok ni →
      (ni.endpoints.delete f rq.EndpointID).1 = none →
      (ni.endpoints.delete f rq.EndpointID).2.length = 0 →
      callsSince d (d.DeleteEndpoint f rq).2 =
        [Call.networksGet rq.NetworkID, Call.endpointsDelete rq.NetworkID rq.EndpointID,
         Call.endpointsLength rq.NetworkID, Call.deleteLink ni.config]) ∧
    (∀ ni e, (d.networks.get rq.NetworkID).1 = .ok ni →
      (ni.endpoints.delete f rq.EndpointID).1 = some e →
      (d.DeleteEndpoint f rq).1 = some e ∧
      (d.DeleteEndpoint f rq).2.networks.links = d.networks.links) ∧
    (∀ ni, (d.networks.get rq.NetworkID).1 = .ok ni →
      (ni.endpoints.delete f rq.EndpointID).1 = none →
      0 < (ni.endpoints.delete f rq.EndpointID).2.length →
      (d.DeleteEndpoint f rq).1 = none ∧
      (d.DeleteEndpoint f rq).2.networks.links = d.networks.links) := by
  have hlast : ∀ ni, (d.networks.get rq.NetworkID).1 = .ok ni →
      (ni.endpoints.delete f rq.EndpointID).1 = none →
      (ni.endpoints.delete f rq.EndpointID).2.length = 0 →
      callsSince d (d.DeleteEndpoint f rq).2 =
        [Call.networksGet rq.NetworkID, Call.endpointsDelete rq.NetworkID rq.EndpointID,
         Call.endpointsLength rq.NetworkID, Call.deleteLink ni.config] := by
    intro ni hget hdel hlen
    have hfind := networks_get_ok _ _ _ hget
    obtain ⟨_, h2⟩ := DeleteEndpoint_path_last f d rq ni hfind hdel hlen
    apply callsSince_append
    rw [h2, deleteLink_calls]
    simp [networks_calls_log, networks_calls_setEndpoints]
  refine ⟨?_, hlast, ?_, ?_⟩
  · constructor
    · rintro ⟨c, hc⟩
      cases hfind : d.networks.find rq.NetworkID with
      | none =>
        obtain ⟨_, h2⟩ := DeleteEndpoint_path_unknown f d rq hfind
        have hcalls : callsSince d (d.DeleteEndpoint f rq).2 =
            [Call.networksGet rq.NetworkID] := by
          apply callsSince_append
          rw [h2]
          rfl
        rw [hcalls] at hc
        simp at hc
      | some ni =>
        have hget : (d.networks.get rq.NetworkID).1 = .ok ni := by
          rw [networks_get_of_find _ _ _ hfind]
        cases hdel : (ni.endpoints.delete f rq.EndpointID).1 with
        | some e =>
          obtain ⟨_, h2⟩ := DeleteEndpoint_path_fail f d rq ni e hfind hdel
          have hcalls : callsSince d (d.DeleteEndpoint f rq).2 =
              [Call.networksGet rq.NetworkID,
               Call.endpointsDelete rq.NetworkID rq.EndpointID] := by
            apply callsSince_append
            rw [h2]
            simp [networks_calls_log, networks_calls_setEndpoints]
          rw [hcalls] at hc
          simp at hc
        | none =>
          by_cases hlen : (ni.endpoints.delete f rq.EndpointID).2.length = 0
          · exact ⟨ni, hget, hdel, hlen⟩
          · obtain ⟨_, h2⟩ := DeleteEndpoint_path_remaining f d rq ni hfind hdel hlen
            have hcalls : callsSince d (d.DeleteEndpoint f rq).2 =
                [Call.networksGet rq.NetworkID,
                 Call.endpointsDelete rq.NetworkID rq.EndpointID,
                 Call.endpointsLength rq.NetworkID] := by
              apply callsSince_append
              rw [h2]
              simp [networks_calls_log, networks_calls_setEndpoints]
            rw [hcalls] at hc
            simp at hc
    · rintro ⟨ni, hget, hdel, hlen⟩
      refine ⟨ni.config, ?_⟩
      rw [hlast ni hget hdel hlen]
      simp
  · intro ni e hget hdel
    have hfind := networks_get_ok _ _ _ hget
    obtain ⟨h1, h2⟩ := DeleteEndpoint_path_fail f d rq ni e hfind hdel
    refine ⟨h1, ?_⟩
    rw [h2]
    rfl
  · intro ni hget hdel hlen
    have hfind := networks_get_ok _ _ _ hget
    obtain ⟨h1, h2⟩ := DeleteEndpoint_path_remaining f d rq ni hfind hdel (by omega)
    refine ⟨h1, ?_⟩
    rw [h2]
    rfl

/-- Witness of C6: on the live network `net1`, removing its only endpoint
invokes `deleteLink`; a removal that fails returns its error and leaves the
link. -/
theorem DeleteEndpoint_deleteLink_iff_witness :
    callsSince driverLive (driverLive.DeleteEndpoint noFaults ⟨"net1", "ep1"⟩).2 =
      [Call.networksGet "net1", Call.endpointsDelete "net1" "ep1",
       Call.endpointsLength "net1", Call.deleteLink config100] ∧
    ((driverLive.DeleteEndpoint storeDeleteFails ⟨"net1", "ep1"⟩).1 =
        some Error.StoreUnavailable ∧
      (driverLive.DeleteEndpoint storeDeleteFails ⟨"net1", "ep1"⟩).2.networks.links =
        ["vlan100", "bran100"]) :=
  ⟨(DeleteEndpoint_deleteLink_iff noFaults driverLive ⟨"net1", "ep1"⟩).2.1
      { id := "net1", config := config100,
        endpoints := { items := [{ id := "ep1", ifname := "vethep1" }] } }
      (by rfl) (by rfl) (by rfl),
   (DeleteEndpoint_deleteLink_iff storeDeleteFails driverLive ⟨"net1", "ep1"⟩).2.2.1
      { id := "net1", config := config100,
        endpoints := { items := [{ id := "ep1", ifname := "vethep1" }] } }
      Error.StoreUnavailable (by rfl) (by rfl)⟩

/-- C7, as the code has it: when `DeleteEndpoint(networkID, endpointID)`
removes the last endpoint of a network and `deleteLink` fails, the call returns
the error of `deleteLink` and the links are unchanged; calling
`DeleteEndpoint(networkID, endpointID)` again, whatever the kernel and the store
do then, returns the `NotFound` of the endpoint registry's `delete`, makes only
the lookup and the `delete` call (so `deleteLink` is not invoked), and leaves the
links as they were before the first call. -/
theorem DeleteEndpoint_retry_after_deleteLink_failure (f f' : Faults) (d : driver)
    (rq : DeleteEndpointRequest) (ni : network) (e : Error)
    (hget : (d.networks.get rq.NetworkID).1 = .ok ni)
    (hdel : (ni.endpoints.delete f rq.EndpointID).1 = none)
    (hlen : (ni.endpoints.delete f rq.EndpointID).2.length = 0)
    (hfail : (d.networks.deleteLink f ni.config).1 = some e) :
    (d.DeleteEndpoint f rq).1 = some e ∧
    (d.DeleteEndpoint f rq).2.networks.links = d.networks.links ∧
    ((d.DeleteEndpoint f rq).2.DeleteEndpoint f' rq).1 = some Error.NotFound ∧
    callsSince (d.DeleteEndpoint f rq).2 ((d.DeleteEndpoint f rq).2.DeleteEndpoint f' rq).2 =
      [Call.networksGet rq.NetworkID, Call.endpointsDelete rq.NetworkID rq.EndpointID] ∧
    ((d.DeleteEndpoint f rq).2.DeleteEndpoint f' rq).2.networks.links = d.networks.links := by
  have hfind := networks_get_ok _ _ _ hget
  rw [deleteLink_eq] at hfail
  simp only [] at hfail
  obtain ⟨h1, h2⟩ := DeleteEndpoint_path_last f d rq ni hfind hdel hlen
  have hlinks : (d.DeleteEndpoint f rq).2.networks.links = d.networks.links := by
    rw [h2, deleteLink_links_fail _ _ _ _ hfail]
    rfl
  have hfind1 : (d.DeleteEndpoint f rq).2.networks.find rq.NetworkID =
      some { ni with endpoints := (ni.endpoints.delete f rq.EndpointID).2 } := by
    rw [h2, deleteLink_find, networks_find_log, networks_find_log]
    exact networks_find_setEndpoints_same _ _ _ _ hfind
  have hitems : (ni.endpoints.delete f rq.EndpointID).2.items = [] :=
    List.length_eq_zero.mp hlen
  have habs : ((ni.endpoints.delete f rq.EndpointID).2.delete f' rq.EndpointID).1 =
      some Error.NotFound := by
    rw [endpoints_delete_absent]
    rw [hitems]
    rfl
  obtain ⟨h3, h4⟩ := DeleteEndpoint_path_fail f' (d.DeleteEndpoint f rq).2 rq _ _ hfind1 habs
  refine ⟨?_, hlinks, h3, ?_, ?_⟩
  · rw [h1, hfail]
  · apply callsSince_append
    rw [h4]
    simp [networks_calls_log, networks_calls_setEndpoints]
  · rw [h4, networks_links_log, networks_links_setEndpoints, networks_links_log, hlinks]

/-- Witness of C7 as the code has it: the last endpoint of `net1` is removed
while the kernel rejects the removal of the link, then the call is repeated. -/
theorem DeleteEndpoint_retry_after_deleteLink_failure_witness :
    (driverLive.DeleteEndpoint linkDeleteFails ⟨"net1", "ep1"⟩).1 =
      some Error.LinkDeleteFailed ∧
    ((driverLive.DeleteEndpoint linkDeleteFails ⟨"net1", "ep1"⟩).2.DeleteEndpoint
      noFaults ⟨"net1", "ep1"⟩).1 = some Error.NotFound ∧
    ((driverLive.DeleteEndpoint linkDeleteFails ⟨"net1", "ep1"⟩).2.DeleteEndpoint
      noFaults ⟨"net1", "ep1"⟩).2.networks.links = ["vlan100", "bran100"] :=
  have h := DeleteEndpoint_retry_after_deleteLink_failure linkDeleteFails noFaults driverLive
    ⟨"net1", "ep1"⟩
    { id := "net1", config := config100,
      endpoints := { items := [{ id := "ep1", ifname := "vethep1" }] } }
    Error.LinkDeleteFailed (by rfl) (by rfl) (by rfl) (by rfl)
  ⟨h.1, h.2.2.1, h.2.2.2.2⟩

/-- Counterexample to C7 as stated: the last endpoint `ep1` of `net1` is removed
while `deleteLink` fails; the repeated `DeleteEndpoint("net1", "ep1")`, with no
failure of the kernel or the store, fails with `NotFound`, does not invoke
`deleteLink`, and the link of `net1` is still live. -/
theorem DeleteEndpoint_retry_leaves_link :
    (driverLive.DeleteEndpoint linkDeleteFails ⟨"net1", "ep1"⟩).1 =
      some Error.LinkDeleteFailed ∧
    (driverLive.DeleteEndpoint linkDeleteFails ⟨"net1", "ep1"⟩).2.endpointCount "net1" = 0 ∧
    ((driverLive.DeleteEndpoint linkDeleteFails ⟨"net1", "ep1"⟩).2.DeleteEndpoint
      noFaults ⟨"net1", "ep1"⟩).1 = some Error.NotFound ∧
    Call.deleteLink config100 ∉
      callsSince (driverLive.DeleteEndpoint linkDeleteFails ⟨"net1", "ep1"⟩).2
        ((driverLive.DeleteEndpoint linkDeleteFails ⟨"net1", "ep1"⟩).2.DeleteEndpoint
          noFaults ⟨"net1", "ep1"⟩).2 ∧
    ((driverLive.DeleteEndpoint linkDeleteFails ⟨"net1", "ep1"⟩).2.DeleteEndpoint
      noFaults ⟨"net1", "ep1"⟩).2.linkLive "net1" = true := by
  decide

/-! ## Join -/

/-- C10: for every `(networkID, endpointID)`, if the network is registered and
the endpoint exists in it, `Join` succeeds and returns the textual form of the
network's configured IPv4 gateway together with the endpoint's host-side veth
name as source interface name and the container prefix `"eth"`; if the network
is not registered, or the endpoint is absent from it, `Join` returns the
registry's `NotFound` error and no response. -/
theorem Join_endpoint_info (d : driver) (rq : JoinRequest) :
    (∀ ni ep, d.networks.find rq.NetworkID = some ni →
      ni.endpoints.items.find? (fun e => e.id = rq.EndpointID) = some ep →
      (d.Join rq).1 =
        (some { Gateway := ni.config.GatewayIPv4.String,
                InterfaceName := { SrcName := ep.ifname, DstPrefix := "eth" } }, none)) ∧
    (d.networks.find rq.NetworkID = none → (d.Join rq).1 = (none, some Error.NotFound)) ∧
    (∀ ni, d.networks.find rq.NetworkID = some ni →
      (∀ e ∈ ni.endpoints.items, e.id ≠ rq.EndpointID) →
      (d.Join rq).1 = (none, some Error.NotFound)) := by
  refine ⟨?_, ?_, ?_⟩
  · intro ni ep hfind hep
    have hget : ni.endpoints.get rq.EndpointID = .ok ep := by
      unfold endpoints.get
      rw [hep]
    exact Join_path_found d rq ni ep hfind hget
  · intro hfind
    exact Join_path_unknown d rq hfind
  · intro ni hfind habs
    have hget : ni.endpoints.get rq.EndpointID = .error Error.NotFound := by
      unfold endpoints.get
      have : ni.endpoints.items.find? (fun e => e.id = rq.EndpointID) = none := by
        rw [List.find?_eq_none]
        intro e he
        simpa using habs e he
      rw [this]
    exact Join_path_absent d rq ni _ hfind hget

/-- Witness of C10: `Join` on the live network `net1`, for its endpoint `ep1`,
for the unregistered network `net9` and for the absent endpoint `ep2`. -/
theorem Join_endpoint_info_witness :
    (driverLive.Join ⟨"net1", "ep1", "sandbox"⟩).1 =
      (some { Gateway := "10.0.0.1",
              InterfaceName := { SrcName := "vethep1", DstPrefix := "eth" } }, none) ∧
    (driverLive.Join ⟨"net9", "ep1", "sandbox"⟩).1 = (none, some Error.NotFound) ∧
    (driverLive.Join ⟨"net1", "ep2", "sandbox"⟩).1 = (none, some Error.NotFound) :=
  ⟨(Join_endpoint_info driverLive ⟨"net1", "ep1", "sandbox"⟩).1
      { id := "net1", config := config100,
        endpoints := { items := [{ id := "ep1", ifname := "vethep1" }] } }
      { id := "ep1", ifname := "vethep1" } (by rfl) (by rfl),
   (Join_endpoint_info driverLive ⟨"net9", "ep1", "sandbox"⟩).2.1 (by rfl),
   (Join_endpoint_info driverLive ⟨"net1", "ep2", "sandbox"⟩).2.2
      { id := "net1", config := config100,
        endpoints := { items := [{ id := "ep1", ifname := "vethep1" }] } }
      (by rfl) (by decide)⟩

/-! ## CreateNetwork: the labels -/

theorem callsSince_self (d : driver) : callsSince d d = [] := by
  unfold callsSince
  simp

theorem Atoi_ok_ne_empty (vlan : String) (n : Int) (h : Atoi vlan = .ok n) : vlan ≠ "" := by
  intro he
  subst he
  simp [Atoi, atoiChars] at h

theorem CreateNetwork_of_config (p : Parsers) (f : Faults) (d : driver)
    (rq : CreateNetworkRequest) (labels : List (String × LabelValue)) (cfg c1 c2 : networkConfig)
    (hl : asLabels (mapGet rq.Options GenericData) = some labels)
    (hc : configFromLabels labels = .ok cfg)
    (h1 : p.parseIPAM rq.NetworkID rq.IPv4Data rq.IPv6Data cfg = .ok c1)
    (h2 : p.parseLabels labels c1 = .ok c2) :
    d.CreateNetwork p f rq =
      ((d.networks.create f rq.NetworkID c2).1,
        { d with networks := (d.networks.create f rq.NetworkID c2).2 }) := by
  unfold driver.CreateNetwork
  simp only [hl, hc, h1, h2]

/-- C8: `CreateNetwork` returns an error immediately, makes no call at all (so
the network registry's `create` is never called) and leaves the driver state
unchanged (no network is registered) for every request whose options lack the
generic-data label map (error `ErrMissingParameterMap`), whose `"vlan"` label
is missing, not a string or empty (error `ErrMissingParam("vlan")`), or whose
`"vlan"` label does not parse as a decimal integer (a parse error that carries
the label and the cause `strconv.Atoi` reported). -/
theorem CreateNetwork_invalid_options (p : Parsers) (f : Faults) (d : driver)
    (rq : CreateNetworkRequest) :
    (asLabels (mapGet rq.Options GenericData) = none →
      d.CreateNetwork p f rq = (some Error.ErrMissingParameterMap, d) ∧
      callsSince d (d.CreateNetwork p f rq).2 = []) ∧
    (∀ labels, asLabels (mapGet rq.Options GenericData) = some labels →
      (asString (mapGet labels "vlan") = none ∨ asString (mapGet labels "vlan") = some "") →
      d.CreateNetwork p f rq = (some (Error.ErrMissingParam "vlan"), d) ∧
      callsSince d (d.CreateNetwork p f rq).2 = []) ∧
    (∀ labels vlan cause, asLabels (mapGet rq.Options GenericData) = some labels →
      asString (mapGet labels "vlan") = some vlan → vlan ≠ "" →
      Atoi vlan = .error cause →
      d.CreateNetwork p f rq = (some (Error.CouldNotParse vlan cause), d) ∧
      callsSince d (d.CreateNetwork p f rq).2 = []) := by
  refine ⟨?_, ?_, ?_⟩
  · intro hl
    have h : d.CreateNetwork p f rq = (some Error.ErrMissingParameterMap, d) := by
      unfold driver.CreateNetwork
      rw [hl]
    rw [h]
    exact ⟨rfl, callsSince_self d⟩
  · intro labels hl hv
    have hc : configFromLabels labels = .error (Error.ErrMissingParam "vlan") := by
      unfold configFromLabels
      rcases hv with hv | hv
      · rw [hv]
      · rw [hv]
        rfl
    have h : d.CreateNetwork p f rq = (some (Error.ErrMissingParam "vlan"), d) := by
      unfold driver.CreateNetwork
      rw [hl]
      simp only [hc]
    rw [h]
    exact ⟨rfl, callsSince_self d⟩
  · intro labels vlan cause hl hv hne ha
    have hc : configFromLabels labels = .error (Error.CouldNotParse vlan cause) := by
      unfold configFromLabels
      rw [hv]
      simp only [if_neg hne, ha]
    have h : d.CreateNetwork p f rq = (some (Error.CouldNotParse vlan cause), d) := by
      unfold driver.CreateNetwork
      rw [hl]
      simp only [hc]
    rw [h]
    exact ⟨rfl, callsSince_self d⟩

/-- Witness of C8: a request without the label map, one without a `vlan` label,
one whose `vlan` label is a number and not a string, and one whose `vlan` label
is not a decimal integer. -/
theorem CreateNetwork_invalid_options_witness :
    driverRegistered.CreateNetwork plainParsers noFaults
        { NetworkID := "net2", Options := [], IPv4Data := [], IPv6Data := [] } =
      (some Error.ErrMissingParameterMap, driverRegistered) ∧
    driverRegistered.CreateNetwork plainParsers noFaults
        (createNetworkRq "net2" [("bridge", .str "br0")]) =
      (some (Error.ErrMissingParam "vlan"), driverRegistered) ∧
    driverRegistered.CreateNetwork plainParsers noFaults
        (createNetworkRq "net2" [("vlan", .num 100)]) =
      (some (Error.ErrMissingParam "vlan"), driverRegistered) ∧
    driverRegistered.CreateNetwork plainParsers noFaults
        (createNetworkRq "net2" [("vlan", .str "10a")]) =
      (some (Error.CouldNotParse "10a" NumError.ErrSyntax), driverRegistered) :=
  ⟨((CreateNetwork_invalid_options plainParsers noFaults driverRegistered
      { NetworkID := "net2", Options := [], IPv4Data := [], IPv6Data := [] }).1 (by rfl)).1,
   ((CreateNetwork_invalid_options plainParsers noFaults driverRegistered
      (createNetworkRq "net2" [("bridge", .str "br0")])).2.1
        [("bridge", .str "br0")] (by rfl) (Or.inl (by rfl))).1,
   ((CreateNetwork_invalid_options plainParsers noFaults driverRegistered
      (createNetworkRq "net2" [("vlan", .num 100)])).2.1
        [("vlan", .num 100)] (by rfl) (Or.inl (by rfl))).1,
   ((CreateNetwork_invalid_options plainParsers noFaults driverRegistered
      (createNetworkRq "net2" [("vlan", .str "10a")])).2.2
        [("vlan", .str "10a")] "10a" NumError.ErrSyntax (by rfl) (by rfl) (by decide)
        (by rfl)).1⟩

/-- C9: for every `CreateNetwork` request whose `"vlan"` label parses to the
integer `n`, the network config built from the labels has `Vlan = n`,
`Mtu = 1500`, `EnableIPv6 = false`, link name equal to the `"iface"` label when
that is a non-empty string and otherwise `"vlan"` followed by the decimal form
of `n`, and bridge name equal to the `"bridge"` label when that is a non-empty
string and otherwise `"bran"` followed by the decimal form of `n`. This config
is the one handed to `parseIPAM`; when `parseIPAM` and `parseLabels` leave it
as built, it is the config the network registry's `create` is called with. -/
theorem CreateNetwork_config_from_labels (f : Faults) (d : driver) (rq : CreateNetworkRequest)
    (labels : List (String × LabelValue)) (vlan : String) (n : Int)
    (hl : asLabels (mapGet rq.Options GenericData) = some labels)
    (hv : asString (mapGet labels "vlan") = some vlan)
    (hn : Atoi vlan = .ok n) :
    ∃ cfg, configFromLabels labels = .ok cfg ∧
      cfg.Vlan = n ∧ cfg.Mtu = 1500 ∧ cfg.EnableIPv6 = false ∧
      (∀ name, asString (mapGet labels "iface") = some name → name ≠ "" →
        cfg.LinkName = name) ∧
      ((asString (mapGet labels "iface") = none ∨ asString (mapGet labels "iface") = some "") →
        cfg.LinkName = "vlan" ++ Itoa n) ∧
      (∀ name, asString (mapGet labels "bridge") = some name → name ≠ "" →
        cfg.BridgeName = name) ∧
      ((asString (mapGet labels "bridge") = none ∨
          asString (mapGet labels "bridge") = some "") →
        cfg.BridgeName = "bran" ++ Itoa n) ∧
      callsSince d (d.CreateNetwork plainParsers f rq).2 =
        [Call.networksCreate rq.NetworkID cfg] := by
  have hne := Atoi_ok_ne_empty vlan n hn
  have hc : ∃ cfg, configFromLabels labels = .ok cfg ∧ cfg =
      { LinkName :=
          match asString (mapGet labels "iface") with
          | some name => if name = "" then "vlan" ++ Itoa n else name
          | none => "vlan" ++ Itoa n,
        BridgeName :=
          match asString (mapGet labels "bridge") with
          | some name => if name = "" then "bran" ++ Itoa n else name
          | none => "bran" ++ Itoa n,
        Vlan := n, Mtu := 1500, EnableIPv6 := false, GatewayIPv4 := { bytes := [] } } := by
    refine ⟨_, ?_, rfl⟩
    unfold configFromLabels
    rw [hv]
    simp only [if_neg hne, hn]
  obtain ⟨cfg, hcfg, hval⟩ := hc
  refine ⟨cfg, hcfg, ?_, ?_, ?_, ?_, ?_, ?_, ?_, ?_⟩
  · rw [hval]
  · rw [hval]
  · rw [hval]
  · intro name hname hnz
    rw [hval]
    simp only [hname, if_neg hnz]
  · intro h
    rw [hval]
    rcases h with h | h
    · simp only [h]
    · simp only [h, if_true]
  · intro name hname hnz
    rw [hval]
    simp only [hname, if_neg hnz]
  · intro h
    rw [hval]
    rcases h with h | h
    · simp only [h]
    · simp only [h, if_true]
  · rw [CreateNetwork_of_config plainParsers f d rq labels cfg cfg cfg hl hcfg rfl rfl]
    apply callsSince_append
    unfold networks.create
    simp only []
    split
    · rfl
    · split
      · rfl
      · split <;> rfl

/-- Witness of C9: `vlan = "100"` with no other label gives `vlan100` and
`bran100`. -/
theorem CreateNetwork_config_from_labels_witness :
    configFromLabels [("vlan", .str "100")] =
      .ok { LinkName := "vlan100", BridgeName := "bran100", Vlan := 100, Mtu := 1500,
            EnableIPv6 := false, GatewayIPv4 := { bytes := [] } } ∧
    ∃ cfg, configFromLabels [("vlan", .str "100")] = .ok cfg ∧
      cfg.Vlan = 100 ∧ cfg.LinkName = "vlan" ++ Itoa 100 ∧ cfg.BridgeName = "bran" ++ Itoa 100 :=
  ⟨by rfl,
   match CreateNetwork_config_from_labels noFaults driverRegistered
      (createNetworkRq "net2" [("vlan", .str "100")]) [("vlan", .str "100")] "100" 100
      (by rfl) (by rfl) (by rfl) with
   | ⟨cfg, h0, h1, _, _, _, h5, _, h7, _⟩ =>
     ⟨cfg, h0, h1, h5 (Or.inl (by rfl)), h7 (Or.inl (by rfl))⟩⟩

/-! ## The lifecycle rule: link live iff the network has endpoints -/

theorem find_append_other (t : List network) (x : network) (id : String) (h : x.id ≠ id) :
    (t ++ [x]).find? (fun n => n.id = id) = t.find? (fun n => n.id = id) := by
  induction t with
  | nil => simp [h]
  | cons n t ih =>
    simp only [List.cons_append, List.find?_cons]
    cases hd : decide (n.id = id)
    · simpa using ih
    · rfl

theorem find_append_new (t : List network) (x : network) (id : String) (h : x.id = id)
    (hnone : t.find? (fun n => n.id = id) = none) :
    (t ++ [x]).find? (fun n => n.id = id) = some x := by
  induction t with
  | nil => simp [h]
  | cons n t ih =>
    simp only [List.find?_cons] at hnone
    simp only [List.cons_append, List.find?_cons]
    cases hd : decide (n.id = id)
    · rw [hd] at hnone
      exact ih hnone
    · rw [hd] at hnone
      simp at hnone

theorem find_filter_other (t : List network) (id id' : String) (h : id' ≠ id) :
    (t.filter (fun n => n.id ≠ id)).find? (fun n => n.id = id') =
      t.find? (fun n => n.id = id') := by
  induction t with
  | nil => rfl
  | cons n t ih =>
    by_cases hn : n.id = id
    · have hn' : ¬ n.id = id' := fun h' => h (h'.symm.trans hn)
      have h1 : (n :: t).filter (fun n => n.id ≠ id) = t.filter (fun n => n.id ≠ id) :=
        List.filter_cons_of_neg (by simp [hn])
      rw [h1, ih, List.find?_cons_of_neg _ (by simpa using hn')]
    · have h1 : (n :: t).filter (fun n => n.id ≠ id) = n :: t.filter (fun n => n.id ≠ id) :=
        List.filter_cons_of_pos (by simpa using hn)
      rw [h1]
      by_cases hn' : n.id = id'
      · rw [List.find?_cons_of_pos _ (by simpa using hn'),
          List.find?_cons_of_pos _ (by simpa using hn')]
      · rw [List.find?_cons_of_neg _ (by simpa using hn'),
          List.find?_cons_of_neg _ (by simpa using hn'), ih]

theorem find_filter_same (t : List network) (id : String) :
    (t.filter (fun n => n.id ≠ id)).find? (fun n => n.id = id) = none := by
  rw [List.find?_eq_none]
  intro n hn
  have := (List.mem_filter.mp hn).2
  simpa using this

theorem networks_create_ok (f : Faults) (ns : networks) (id : String) (c : networkConfig)
    (h : (ns.create f id c).1 = none) :
    ns.find id = none ∧ (ns.create f id c).2.links = ns.links ∧
    (∀ n, n ≠ id → (ns.create f id c).2.find n = ns.find n) ∧
    (ns.create f id c).2.find id =
      some { id := id, config := c, endpoints := { items := [] } } := by
  unfold networks.create at h ⊢
  simp only [networks_find_log] at h ⊢
  cases hf : ns.find id with
  | some ni =>
    rw [hf] at h
    simp at h
  | none =>
    rw [hf] at h
    simp only [] at h ⊢
    by_cases hv : c.Vlan ≤ 0 ∨ c.LinkName = "" ∨ c.BridgeName = ""
    · rw [if_pos hv] at h
      simp at h
    · rw [if_neg hv] at h ⊢
      cases hs : f.networksCreate with
      | some e =>
        rw [hs] at h
        simp at h
      | none =>
        simp only []
        refine ⟨trivial, rfl, ?_, ?_⟩
        · intro n hn
          unfold networks.find
          exact find_append_other _ _ _ (fun h' => hn h'.symm)
        · unfold networks.find
          exact find_append_new _ _ _ rfl hf

theorem networks_delete_ok (f : Faults) (ns : networks) (id : String)
    (h : (ns.delete f id).1 = none) :
    (ns.delete f id).2.links = ns.links ∧
    (∀ n, n ≠ id → (ns.delete f id).2.find n = ns.find n) ∧
    (ns.delete f id).2.find id = none := by
  unfold networks.delete at h ⊢
  simp only [networks_find_log] at h ⊢
  cases hf : ns.find id with
  | none =>
    rw [hf] at h
    simp at h
  | some ni =>
    rw [hf] at h
    simp only [] at h ⊢
    by_cases hb : ni.endpoints.length ≠ 0
    · rw [if_pos hb] at h
      simp at h
    · rw [if_neg hb] at h ⊢
      cases hs : f.networksDelete with
      | some e =>
        rw [hs] at h
        simp at h
      | none =>
        simp only []
        refine ⟨rfl, ?_, ?_⟩
        · intro n hn
          unfold networks.find
          exact find_filter_other _ _ _ hn
        · unfold networks.find
          exact find_filter_same _ _

theorem CreateNetwork_cases (p : Parsers) (f : Faults) (d : driver) (rq : CreateNetworkRequest) :
    (∃ e, d.CreateNetwork p f rq = (some e, d)) ∨
    ∃ c, d.CreateNetwork p f rq =
      ((d.networks.create f rq.NetworkID c).1,
        { d with networks := (d.networks.create f rq.NetworkID c).2 }) := by
  unfold driver.CreateNetwork
  cases asLabels (mapGet rq.Options GenericData) with
  | none => exact Or.inl ⟨_, rfl⟩
  | some labels =>
    simp only []
    cases configFromLabels labels with
    | error e => exact Or.inl ⟨_, rfl⟩
    | ok c0 =>
      simp only []
      cases p.parseIPAM rq.NetworkID rq.IPv4Data rq.IPv6Data c0 with
      | error e => exact Or.inl ⟨_, rfl⟩
      | ok c1 =>
        simp only []
        cases p.parseLabels labels c1 with
        | error e => exact Or.inl ⟨_, rfl⟩
        | ok c2 => exact Or.inr ⟨c2, rfl⟩

theorem networks_create_err (f : Faults) (ns : networks) (id : String) (c : networkConfig)
    (e : Error) (h : (ns.create f id c).1 = some e) :
    (ns.create f id c).2 = ns.log (.networksCreate id c) := by
  unfold networks.create at h ⊢
  simp only [networks_find_log] at h ⊢
  cases hf : ns.find id with
  | some ni => rfl
  | none =>
    rw [hf] at h
    simp only [] at h ⊢
    by_cases hv : c.Vlan ≤ 0 ∨ c.LinkName = "" ∨ c.BridgeName = ""
    · rw [if_pos hv]
    · rw [if_neg hv] at h ⊢
      cases hs : f.networksCreate with
      | some e' => rfl
      | none =>
        rw [hs] at h
        simp at h

theorem networks_delete_err (f : Faults) (ns : networks) (id : String) (e : Error)
    (h : (ns.delete f id).1 = some e) : (ns.delete f id).2 = ns.log (.networksDelete id) := by
  unfold networks.delete at h ⊢
  simp only [networks_find_log] at h ⊢
  cases hf : ns.find id with
  | none => rfl
  | some ni =>
    rw [hf] at h
    simp only [] at h ⊢
    by_cases hb : ni.endpoints.length ≠ 0
    · rw [if_pos hb]
    · rw [if_neg hb] at h ⊢
      cases hs : f.networksDelete with
      | some e' => rfl
      | none =>
        rw [hs] at h
        simp at h

theorem hasLink_createLink_other (f : Faults) (ns : networks) (c c' : networkConfig)
    (h : f.createLink = none) (hns : ¬ sharesInterface c c') :
    (ns.createLink f c).2.hasLink c' ↔ ns.hasLink c' := by
  unfold sharesInterface at hns
  unfold networks.hasLink
  rw [createLink_mem_links _ _ _ _ h, createLink_mem_links _ _ _ _ h]
  have h1 : c'.LinkName ≠ c.LinkName := fun h' => hns (Or.inl h'.symm)
  have h2 : c'.LinkName ≠ c.BridgeName := fun h' => hns (Or.inr (Or.inr (Or.inl h'.symm)))
  have h3 : c'.BridgeName ≠ c.LinkName := fun h' => hns (Or.inr (Or.inl h'.symm))
  have h4 : c'.BridgeName ≠ c.BridgeName := fun h' => hns (Or.inr (Or.inr (Or.inr h'.symm)))
  simp only [h1, h2, h3, h4, or_false]

theorem hasLink_deleteLink_other (f : Faults) (ns : networks) (c c' : networkConfig)
    (h : f.deleteLink = none) (hns : ¬ sharesInterface c c') :
    (ns.deleteLink f c).2.hasLink c' ↔ ns.hasLink c' := by
  unfold sharesInterface at hns
  unfold networks.hasLink
  rw [deleteLink_mem_links _ _ _ _ h, deleteLink_mem_links _ _ _ _ h]
  have h1 : c'.LinkName ≠ c.LinkName := fun h' => hns (Or.inl h'.symm)
  have h2 : c'.LinkName ≠ c.BridgeName := fun h' => hns (Or.inr (Or.inr (Or.inl h'.symm)))
  have h3 : c'.BridgeName ≠ c.LinkName := fun h' => hns (Or.inr (Or.inl h'.symm))
  have h4 : c'.BridgeName ≠ c.BridgeName := fun h' => hns (Or.inr (Or.inr (Or.inr h'.symm)))
  simp only [ne_eq, h1, h2, h3, h4, not_false_eq_true, and_self, and_true]

theorem not_hasLink_deleteLink (f : Faults) (ns : networks) (c : networkConfig)
    (h : f.deleteLink = none) : ¬ (ns.deleteLink f c).2.hasLink c := by
  unfold networks.hasLink
  rw [deleteLink_mem_links _ _ _ _ h]
  intro hc
  exact hc.1.2.1 rfl

theorem linkInvariant_of_frame (d d' : driver) (id : String)
    (hfind : d'.networks.find id = d.networks.find id)
    (hl : ∀ ni, d.networks.find id = some ni →
      (d'.networks.hasLink ni.config ↔ d.networks.hasLink ni.config))
    (hinv : d.linkInvariant id) : d'.linkInvariant id := by
  unfold driver.linkInvariant driver.linkLive driver.endpointCount at hinv ⊢
  rw [hfind]
  cases hf : d.networks.find id with
  | none => rfl
  | some ni =>
    rw [hf] at hinv
    simp only [] at hinv ⊢
    rw [← hinv, decide_eq_decide]
    exact hl ni hf

theorem linkInvariant_of_unchanged (d d' : driver) (id : String)
    (hfind : d'.networks.find id = d.networks.find id)
    (hlinks : d'.networks.links = d.networks.links)
    (hinv : d.linkInvariant id) : d'.linkInvariant id :=
  linkInvariant_of_frame d d' id hfind (fun _ _ => hasLink_congr _ _ _ hlinks) hinv

theorem linkInvariant_of_found (d : driver) (id : String) (ni : network)
    (hfind : d.networks.find id = some ni)
    (h : d.networks.hasLink ni.config ↔ 0 < ni.endpoints.length) : d.linkInvariant id := by
  unfold driver.linkInvariant driver.linkLive driver.endpointCount
  rw [hfind]
  simp only []
  rw [decide_eq_decide]
  exact h

theorem linkInvariant_found (d : driver) (id : String) (ni : network)
    (hfind : d.networks.find id = some ni) (hinv : d.linkInvariant id) :
    d.networks.hasLink ni.config ↔ 0 < ni.endpoints.length := by
  unfold driver.linkInvariant driver.linkLive driver.endpointCount at hinv
  rw [hfind] at hinv
  simp only [] at hinv
  exact decide_eq_decide.mp hinv

theorem linkInvariant_of_unregistered (d : driver) (id : String)
    (hfind : d.networks.find id = none) : d.linkInvariant id := by
  unfold driver.linkInvariant driver.linkLive driver.endpointCount
  rw [hfind]
  rfl

theorem linkPrivate_found (before after : driver) (id : String) (ni : network)
    (h : linkPrivate before after id) (hfind : after.networks.find id = some ni) :
    (∀ m ∈ before.networks.table, m.id ≠ id → ¬ sharesInterface m.config ni.config) ∧
    (before.networks.find id = none → ¬ before.networks.hasLink ni.config) := by
  unfold linkPrivate at h
  rw [hfind] at h
  exact h

theorem linkInvariant_CreateNetwork (p : Parsers) (f : Faults) (d : driver)
    (rq : CreateNetworkRequest) (id : String)
    (hinv : d.linkInvariant id)
    (hpriv : linkPrivate d (d.CreateNetwork p f rq).2 id) :
    (d.CreateNetwork p f rq).2.linkInvariant id := by
  rcases CreateNetwork_cases p f d rq with ⟨e, he⟩ | ⟨c, hc⟩
  · rw [he]
    exact hinv
  · rw [hc] at hpriv ⊢
    simp only [] at hpriv ⊢
    cases hok : (d.networks.create f rq.NetworkID c).1 with
    | some e =>
      have hst := networks_create_err f d.networks rq.NetworkID c e hok
      apply linkInvariant_of_unchanged d _ id _ _ hinv
      · simp only [hst]
        rfl
      · simp only [hst]
        rfl
    | none =>
      obtain ⟨hnone, hlinks, hother, hnew⟩ := networks_create_ok f d.networks rq.NetworkID c hok
      by_cases hid : id = rq.NetworkID
      · subst hid
        apply linkInvariant_of_found _ _ _ hnew
        simp only [endpoints.length, List.length_nil, lt_self_iff_false, iff_false]
        intro hl
        exact (linkPrivate_found _ _ _ _ hpriv hnew).2 hnone ((hasLink_congr _ _ _ hlinks).mp hl)
      · exact linkInvariant_of_unchanged d _ id (hother id hid) hlinks hinv

theorem linkInvariant_DeleteNetwork (f : Faults) (d : driver) (rq : DeleteNetworkRequest)
    (id : String) (hinv : d.linkInvariant id) :
    (d.DeleteNetwork f rq).2.linkInvariant id := by
  unfold driver.DeleteNetwork
  simp only []
  cases hok : (d.networks.delete f rq.NetworkID).1 with
  | some e =>
    have hst := networks_delete_err f d.networks rq.NetworkID e hok
    apply linkInvariant_of_unchanged d _ id _ _ hinv
    · simp only [hst]
      rfl
    · simp only [hst]
      rfl
  | none =>
    obtain ⟨hlinks, hother, hgone⟩ := networks_delete_ok f d.networks rq.NetworkID hok
    by_cases hid : id = rq.NetworkID
    · subst hid
      exact linkInvariant_of_unregistered _ _ hgone
    · exact linkInvariant_of_unchanged d _ id (hother id hid) hlinks hinv

theorem linkInvariant_CreateEndpoint (f : Faults) (d : driver) (rq : CreateEndpointRequest)
    (id : String) (hinv : d.linkInvariant id)
    (hpriv : linkPrivate d (d.CreateEndpoint f rq).2 id)
    (hexc : linkLeftBehind d (d.CreateEndpoint f rq).2 (d.CreateEndpoint f rq).1.2 id = false) :
    (d.CreateEndpoint f rq).2.linkInvariant id := by
  cases hi : rq.Interface with
  | none =>
    rw [CreateEndpoint_path_nil f d rq hi]
    exact hinv
  | some iface =>
    cases hfind : d.networks.find rq.NetworkID with
    | none =>
      obtain ⟨_, h2⟩ := CreateEndpoint_path_unknown f d rq iface hi hfind
      apply linkInvariant_of_unchanged d _ id _ _ hinv
      · rw [h2]
        rfl
      · rw [h2]
        rfl
    | some ni =>
      cases hvac : ni.endpoints.vacant rq.EndpointID with
      | some e =>
        obtain ⟨_, h2⟩ := CreateEndpoint_path_occupied f d rq iface ni e hi hfind hvac
        apply linkInvariant_of_unchanged d _ id _ _ hinv
        · rw [h2]
          rfl
        · rw [h2]
          rfl
      | none =>
        cases hlink : f.createLink with
        | some e =>
          obtain ⟨_, h2⟩ := CreateEndpoint_path_link_fail f d rq iface ni e hi hfind hvac hlink
          apply linkInvariant_of_unchanged d _ id _ _ hinv
          · rw [h2, createLink_find]
            rfl
          · rw [h2, createLink_links_fail _ _ _ _ hlink]
            rfl
        | none =>
          obtain ⟨h1, h2⟩ := CreateEndpoint_path_create f d rq iface ni hi hfind hvac hlink
          have hf3 : ((((d.networks.log (.networksGet rq.NetworkID)).log
              (.endpointsVacant rq.NetworkID rq.EndpointID)).createLink f ni.config).2).find
                rq.NetworkID = some ni := by
            rw [createLink_find]
            exact hfind
          have hcalls : callsSince d (d.CreateEndpoint f rq).2 =
              [Call.networksGet rq.NetworkID, Call.endpointsVacant rq.NetworkID rq.EndpointID,
               Call.createLink ni.config, Call.endpointsCreate rq.NetworkID rq.EndpointID] := by
            apply callsSince_append
            rw [h2, networks_calls_log, networks_calls_setEndpoints, createLink_calls]
            simp [networks_calls_log]
          have hnew : (d.CreateEndpoint f rq).2.networks.find rq.NetworkID =
              some { ni with endpoints :=
                (ni.endpoints.create f rq.EndpointID iface ni.config).2 } := by
            rw [h2, networks_find_log]
            exact networks_find_setEndpoints_same _ _ _ _ hf3
          have hlive : (d.CreateEndpoint f rq).2.networks.hasLink ni.config := by
            rw [h2]
            exact createLink_hasLink _ _ _ hlink
          by_cases hid : id = rq.NetworkID
          · subst hid
            apply linkInvariant_of_found _ _ _ hnew
            simp only [hlive, true_iff]
            cases hc : (ni.endpoints.create f rq.EndpointID iface ni.config).1 with
            | none =>
              have hitems := endpoints_create_ok _ _ _ _ _ hc
              simp only [endpoints.length, hitems]
              simp
            | some e =>
              rw [endpoints_create_fail _ _ _ _ _ _ hc]
              unfold linkLeftBehind at hexc
              rw [h1, hc, hcalls] at hexc
              have hcount : d.endpointCount rq.NetworkID ≠ 0 := by
                simpa using hexc
              unfold driver.endpointCount at hcount
              rw [hfind] at hcount
              exact Nat.pos_of_ne_zero hcount
          · have hsame : (d.CreateEndpoint f rq).2.networks.find id = d.networks.find id := by
              rw [h2, networks_find_log, networks_find_setEndpoints_other _ _ _ _ hid,
                createLink_find]
              rfl
            apply linkInvariant_of_frame d _ id hsame _ hinv
            intro nj hj
            have hns : ¬ sharesInterface ni.config nj.config :=
              (linkPrivate_found _ _ _ _ hpriv (hsame.trans hj)).1 ni
                (networks_find_mem _ _ _ hfind)
                (by rw [networks_find_id _ _ _ hfind]; exact fun h => hid h.symm)
            rw [h2]
            exact hasLink_createLink_other f _ ni.config nj.config hlink hns

theorem linkInvariant_DeleteEndpoint (f : Faults) (d : driver) (rq : DeleteEndpointRequest)
    (id : String) (hinv : d.linkInvariant id)
    (hpriv : linkPrivate d (d.DeleteEndpoint f rq).2 id)
    (hexc : linkLeftBehind d (d.DeleteEndpoint f rq).2 (d.DeleteEndpoint f rq).1 id = false) :
    (d.DeleteEndpoint f rq).2.linkInvariant id := by
  cases hfind : d.networks.find rq.NetworkID with
  | none =>
    obtain ⟨_, h2⟩ := DeleteEndpoint_path_unknown f d rq hfind
    apply linkInvariant_of_unchanged d _ id _ _ hinv
    · rw [h2]
      rfl
    · rw [h2]
      rfl
  | some ni =>
    have hfind' : (d.networks.log (.networksGet rq.NetworkID)).find rq.NetworkID =
        some ni := hfind
    cases hdel : (ni.endpoints.delete f rq.EndpointID).1 with
    | some e =>
      obtain ⟨_, h2⟩ := DeleteEndpoint_path_fail f d rq ni e hfind hdel
      apply linkInvariant_of_unchanged d _ id _ _ hinv
      · rw [h2, networks_find_log, endpoints_delete_fail _ _ _ _ hdel,
          networks_setEndpoints_same _ _ _ hfind']
        rfl
      · rw [h2]
        rfl
    | none =>
      obtain ⟨hany, hitems⟩ := endpoints_delete_ok _ _ _ hdel
      by_cases hlen : (ni.endpoints.delete f rq.EndpointID).2.length = 0
      · obtain ⟨h1, h2⟩ := DeleteEndpoint_path_last f d rq ni hfind hdel hlen
        have hcalls : callsSince d (d.DeleteEndpoint f rq).2 =
            [Call.networksGet rq.NetworkID, Call.endpointsDelete rq.NetworkID rq.EndpointID,
             Call.endpointsLength rq.NetworkID, Call.deleteLink ni.config] := by
          apply callsSince_append
          rw [h2, deleteLink_calls]
          simp [networks_calls_log, networks_calls_setEndpoints]
        by_cases hid : id = rq.NetworkID
        · subst hid
          cases hok : f.deleteLink with
          | some e =>
            unfold linkLeftBehind at hexc
            rw [h1, hok, hcalls] at hexc
            simp at hexc
          | none =>
            have hnew : (d.DeleteEndpoint f rq).2.networks.find rq.NetworkID =
                some { ni with endpoints := (ni.endpoints.delete f rq.EndpointID).2 } := by
              rw [h2, deleteLink_find, networks_find_log, networks_find_log]
              exact networks_find_setEndpoints_same _ _ _ _ hfind'
            apply linkInvariant_of_found _ _ _ hnew
            simp only [hlen, lt_self_iff_false, iff_false]
            rw [h2]
            exact not_hasLink_deleteLink _ _ _ hok
        · have hsame : (d.DeleteEndpoint f rq).2.networks.find id = d.networks.find id := by
            rw [h2, deleteLink_find, networks_find_log, networks_find_log,
              networks_find_setEndpoints_other _ _ _ _ hid]
            rfl
          cases hok : f.deleteLink with
          | some e =>
            apply linkInvariant_of_unchanged d _ id hsame _ hinv
            rw [h2, deleteLink_links_fail _ _ _ _ hok]
            rfl
          | none =>
            apply linkInvariant_of_frame d _ id hsame _ hinv
            intro nj hj
            have hns : ¬ sharesInterface ni.config nj.config :=
              (linkPrivate_found _ _ _ _ hpriv (hsame.trans hj)).1 ni
                (networks_find_mem _ _ _ hfind)
                (by rw [networks_find_id _ _ _ hfind]; exact fun h => hid h.symm)
            rw [h2]
            exact hasLink_deleteLink_other f _ ni.config nj.config hok hns
      · obtain ⟨_, h2⟩ := DeleteEndpoint_path_remaining f d rq ni hfind hdel hlen
        have hlinks : (d.DeleteEndpoint f rq).2.networks.links = d.networks.links := by
          rw [h2]
          rfl
        by_cases hid : id = rq.NetworkID
        · subst hid
          have hnew : (d.DeleteEndpoint f rq).2.networks.find rq.NetworkID =
              some { ni with endpoints := (ni.endpoints.delete f rq.EndpointID).2 } := by
            rw [h2, networks_find_log, networks_find_log]
            exact networks_find_setEndpoints_same _ _ _ _ hfind'
          apply linkInvariant_of_found _ _ _ hnew
          have hbefore := linkInvariant_found d _ ni hfind hinv
          have hpos : 0 < ni.endpoints.length := by
            unfold endpoints.length at hlen ⊢
            rw [hitems] at hlen
            have := List.length_filter_le (fun e => decide (e.id ≠ rq.EndpointID))
              ni.endpoints.items
            omega
          constructor
          · intro _
            exact Nat.pos_of_ne_zero hlen
          · intro _
            exact (hasLink_congr _ _ _ hlinks).mpr (hbefore.mpr hpos)
        · have hsame : (d.DeleteEndpoint f rq).2.networks.find id = d.networks.find id := by
            rw [h2, networks_find_log, networks_find_log,
              networks_find_setEndpoints_other _ _ _ _ hid]
            rfl
          exact linkInvariant_of_unchanged d _ id hsame hlinks hinv

/-- C1, as the code has it: for every network N and every driver operation
(`CreateNetwork`, `DeleteNetwork`, `CreateEndpoint`, `DeleteEndpoint`) started
in a state where link-live(N) = (endpoint-count(N) > 0), the state after the
operation returns, whether with success or with an error, again satisfies
link-live(N) = (endpoint-count(N) > 0), except after the two partial failures
that leave the link of N behind (`CreateEndpoint` on N, when N has no endpoint,
whose `createLink` succeeded and whose endpoint creation failed, and
`DeleteEndpoint` that removed the last endpoint of N and whose `deleteLink`
failed), and provided the link of N is its own: no other registered network names the
sub-interface or the bridge of N, and the link of a network that the operation
registers does not exist yet. -/
theorem linkInvariant_preserved (p : Parsers) (f : Faults) (d : driver) (op : Op)
    (id : String) (hinv : d.linkInvariant id)
    (hpriv : linkPrivate d (d.run p f op).2 id)
    (hexc : linkLeftBehind d (d.run p f op).2 (d.run p f op).1 id = false) :
    (d.run p f op).2.linkInvariant id := by
  cases op with
  | CreateNetwork rq => exact linkInvariant_CreateNetwork p f d rq id hinv hpriv
  | DeleteNetwork rq => exact linkInvariant_DeleteNetwork f d rq id hinv
  | CreateEndpoint rq => exact linkInvariant_CreateEndpoint f d rq id hinv hpriv hexc
  | DeleteEndpoint rq => exact linkInvariant_DeleteEndpoint f d rq id hinv hpriv hexc

/-- Witness of C1 as the code has it, on a driver with `net1` live and `net2`
registered under other interface names: the first endpoint of `net2` is created
(success; the rule holds afterwards for `net2` and for `net1`); the link
creation for `net2` fails (error; the rule holds for `net2`); the removal of
`ep1` from `net1` fails in the store (error; the rule holds for `net1`); a
second endpoint of `net1` fails in the kernel after `createLink` (error; the
rule holds for `net1`, which still has `ep1`); the first endpoint of `net2`
fails in the kernel after `createLink` (error; the rule holds for `net1`). -/
theorem linkInvariant_preserved_witness :
    ((driverTwo.run plainParsers noFaults (.CreateEndpoint (createEndpointRq "net2" "ep1"))).1 =
        none ∧
      (driverTwo.run plainParsers noFaults
        (.CreateEndpoint (createEndpointRq "net2" "ep1"))).2.linkInvariant "net2" ∧
      (driverTwo.run plainParsers noFaults
        (.CreateEndpoint (createEndpointRq "net2" "ep1"))).2.linkInvariant "net1") ∧
    ((driverTwo.run plainParsers linkCreateFails
        (.CreateEndpoint (createEndpointRq "net2" "ep1"))).1 = some Error.LinkCreateFailed ∧
      (driverTwo.run plainParsers linkCreateFails
        (.CreateEndpoint (createEndpointRq "net2" "ep1"))).2.linkInvariant "net2") ∧
    ((driverTwo.run plainParsers storeDeleteFails (.DeleteEndpoint ⟨"net1", "ep1"⟩)).1 =
        some Error.StoreUnavailable ∧
      (driverTwo.run plainParsers storeDeleteFails
        (.DeleteEndpoint ⟨"net1", "ep1"⟩)).2.linkInvariant "net1") ∧
    ((driverTwo.run plainParsers vethCreateFails
        (.CreateEndpoint (createEndpointRq "net1" "ep2"))).1 = some Error.VethCreateFailed ∧
      (driverTwo.run plainParsers vethCreateFails
        (.CreateEndpoint (createEndpointRq "net1" "ep2"))).2.linkInvariant "net1") ∧
    ((driverTwo.run plainParsers vethCreateFails
        (.CreateEndpoint (createEndpointRq "net2" "ep1"))).1 = some Error.VethCreateFailed ∧
      (driverTwo.run plainParsers vethCreateFails
        (.CreateEndpoint (createEndpointRq "net2" "ep1"))).2.linkInvariant "net1") :=
  ⟨⟨by rfl,
    linkInvariant_preserved plainParsers noFaults driverTwo
      (.CreateEndpoint (createEndpointRq "net2" "ep1")) "net2"
      (by decide) (by decide) (by decide),
    linkInvariant_preserved plainParsers noFaults driverTwo
      (.CreateEndpoint (createEndpointRq "net2" "ep1")) "net1"
      (by decide) (by decide) (by decide)⟩,
   ⟨by rfl,
    linkInvariant_preserved plainParsers linkCreateFails driverTwo
      (.CreateEndpoint (createEndpointRq "net2" "ep1")) "net2"
      (by decide) (by decide) (by decide)⟩,
   ⟨by rfl,
    linkInvariant_preserved plainParsers storeDeleteFails driverTwo
      (.DeleteEndpoint ⟨"net1", "ep1"⟩) "net1" (by decide) (by decide) (by decide)⟩,
   ⟨by rfl,
    linkInvariant_preserved plainParsers vethCreateFails driverTwo
      (.CreateEndpoint (createEndpointRq "net1" "ep2")) "net1"
      (by decide) (by decide) (by decide)⟩,
   ⟨by rfl,
    linkInvariant_preserved plainParsers vethCreateFails driverTwo
      (.CreateEndpoint (createEndpointRq "net2" "ep1")) "net1"
      (by decide) (by decide) (by decide)⟩⟩

/-- Counterexample to C1 as stated. (1) On the registered network `net1`, with
no endpoint and no link, `CreateEndpoint` creates the link, the creation of the
veth fails, the call returns that error, and `net1` has a live link and no
endpoint. (2) On the live network `net1`, `DeleteEndpoint` removes the last
endpoint, `deleteLink` fails, the call returns that error, and `net1` has a live
link and no endpoint. (3) With `net1` and `net2` registered under the same
sub-interface and bridge names, a successful `CreateEndpoint` on `net1` makes
the link of `net2` live while `net2` has no endpoint. -/
theorem linkInvariant_broken :
    (driverRegistered.linkInvariant "net1" ∧
      (driverRegistered.run plainParsers vethCreateFails
        (.CreateEndpoint (createEndpointRq "net1" "ep1"))).1 = some Error.VethCreateFailed ∧
      ¬ (driverRegistered.run plainParsers vethCreateFails
        (.CreateEndpoint (createEndpointRq "net1" "ep1"))).2.linkInvariant "net1") ∧
    (driverLive.linkInvariant "net1" ∧
      (driverLive.run plainParsers linkDeleteFails
        (.DeleteEndpoint ⟨"net1", "ep1"⟩)).1 = some Error.LinkDeleteFailed ∧
      ¬ (driverLive.run plainParsers linkDeleteFails
        (.DeleteEndpoint ⟨"net1", "ep1"⟩)).2.linkInvariant "net1") ∧
    (driverShared.linkInvariant "net2" ∧
      (driverShared.run plainParsers noFaults
        (.CreateEndpoint (createEndpointRq "net1" "ep1"))).1 = none ∧
      ¬ (driverShared.run plainParsers noFaults
        (.CreateEndpoint (createEndpointRq "net1" "ep1"))).2.linkInvariant "net2") := by
  decide

end Polyp
